import Mathlib

/-!
Verification of the AirForceNone aircraft-tracking scripts
(poc_tracker.py and poc_tracker2.py) against their specification.

The Python code is shallowly embedded: Python dicts become association
lists (with explicit Python-dict insertion semantics where a literal has
duplicate keys), floats become rationals, absent JSON fields become
Option values, and exceptions raised by external collaborators (HTTP
transport, file system, geocoder) become Except/sum-typed inputs.
Stateful pieces (the reverse-geocoding cache) are passed explicitly, and
the number of invocations of the external geocoder is returned so that
caching claims can be stated.
-/

set_option maxRecDepth 4096

/-- Python truthiness of a string: `a or b` on strings yields `a` when `a` is
nonempty, else `b`. -/
def pyOr (a b : String) : String := if a = "" then b else a

/-- Python str.lower (ASCII case mapping), via the character list so that it
reduces structurally. -/
def pyLower (s : String) : String := ⟨s.data.map Char.toLower⟩

/-- Python str.upper (ASCII case mapping). -/
def pyUpper (s : String) : String := ⟨s.data.map Char.toUpper⟩

/-- Python str.strip: drop leading and trailing whitespace. -/
def pyStrip (s : String) : String :=
  ⟨((s.data.dropWhile fun c => c.isWhitespace).reverse.dropWhile
      fun c => c.isWhitespace).reverse⟩

/-- Python string slicing s[:n]. -/
def pyTake (s : String) (n : ℕ) : String := ⟨s.data.take n⟩

/-- Python truthiness of an optional float: `None` and `0.0` are falsy. -/
def pyTruthy : Option ℚ → Bool
  | none => false
  | some x => !(x == 0)

/-- Boolean check that the first character list is a leading segment of the
second; this is the semantics of Python str.startswith applied to the
character sequences of the two strings. -/
def isPfx : List Char → List Char → Bool
  | [], _ => true
  | _ :: _, [] => false
  | a :: as, b :: bs => a == b && isPfx as bs

/-- Python str.startswith on strings, via the character lists. -/
def pyStartsWith (s p : String) : Bool := isPfx p.data s.data

/-- One Python dict assignment `d[k] = v`: if the key is present its value is
replaced in place (the key keeps its original position in iteration order),
otherwise the pair is appended at the end. -/
def pyDictUpdate {α : Type} (d : List (String × α)) (k : String) (v : α) :
    List (String × α) :=
  if (d.find? (fun p => p.1 == k)).isSome then
    d.map (fun p => if p.1 == k then (k, v) else p)
  else d ++ [(k, v)]

/-- The association list denoted by a Python dict literal: later duplicate
keys overwrite earlier values while keeping the earlier position. -/
def pyDictOfList {α : Type} (ps : List (String × α)) : List (String × α) :=
  ps.foldl (fun d p => pyDictUpdate d p.1 p.2) []

/-- Lowercase hexadecimal digit (the character shape of the identifiers the
specification describes for the aircraft catalog). -/
def isLowerHexChar (c : Char) : Bool :=
  c.isDigit || ('a' ≤ c && c ≤ 'f')

/-- A CSV row as produced by a header-driven reader: column name to cell. -/
abbrev CsvRow := List (String × String)

/-- `row.get(column, "")` of Python csv.DictReader rows. -/
def rowGet (row : CsvRow) (column : String) : String :=
  (row.lookup column).getD ""

/-- The reverse-geocoding cache: formatted coordinate key to country name. -/
abbrev GeoCache := List (String × String)

/-- The external environment of the geolocation step: whether the
reverse_geocoder module imported successfully, and the geocoder itself,
returning the country code of the first search result, or `none` when the
search raises or returns no results. -/
structure GeoEnv where
  rgAvailable : Bool
  geocode : ℚ → ℚ → Option String

/-- Python float formatting with two decimals, `f"{x:.2f}"`, on rationals:
round the magnitude to hundredths (half away from zero; the half-even
behaviour of binary doubles differs only at exact ties, which the program
never relies on), then print sign, integer part and a two-digit fraction.
The rounded value is computed on the numerator and denominator with integer
arithmetic: (200 n + d) / (2 d) is the nearest integer to 100 n / d. -/
def fmt2 (q : ℚ) : String :=
  let n : ℕ := (200 * q.num.natAbs + q.den) / (2 * q.den)
  (if q < 0 then "-" else "") ++ toString (n / 100) ++ "." ++
    (if n % 100 < 10 then "0" else "") ++ toString (n % 100)

/-- The cache key `f"{lat:.2f},{lon:.2f}"` of get_location. -/
def cacheKey (lat lon : ℚ) : String := fmt2 lat ++ "," ++ fmt2 lon

/-- A known-aircraft record of the PRESIDENTIAL_AIRCRAFT table. -/
structure PresidentialRecord where
  country : String
  description : String
  registration : String
  type : String
deriving DecidableEq

/-- PRIORITY_COUNTRIES of poc_tracker.py (a set; only membership is used). -/
def PRIORITY_COUNTRIES : List String :=
  ["USA", "Russia", "Czech Rep", "Ukraine", "China", "North Korea"]
/-- The value of the "alt_baro" JSON field: either the string sentinel
"ground" or a barometric altitude in feet. -/
inductive AltBaro where
  | ground
  | level (n : ℤ)
deriving DecidableEq
def country_names : List (String × String) := [
  ("US", "USA"),
  ("GB", "UK"),
  ("DE", "Germany"),
  ("FR", "France"),
  ("IT", "Italy"),
  ("ES", "Spain"),
  ("PL", "Poland"),
  ("CZ", "Czechia"),
  ("UA", "Ukraine"),
  ("RU", "Russia"),
  ("CN", "China"),
  ("KP", "N.Korea"),
  ("NL", "Netherlands"),
  ("BE", "Belgium"),
  ("AT", "Austria"),
  ("CH", "Switzerland"),
  ("SE", "Sweden"),
  ("NO", "Norway"),
  ("DK", "Denmark"),
  ("FI", "Finland"),
  ("PT", "Portugal"),
  ("GR", "Greece"),
  ("HU", "Hungary"),
  ("RO", "Romania"),
  ("BG", "Bulgaria"),
  ("HR", "Croatia"),
  ("SI", "Slovenia"),
  ("SK", "Slovakia"),
  ("EE", "Estonia"),
  ("LV", "Latvia"),
  ("LT", "Lithuania"),
  ("IE", "Ireland"),
  ("TR", "Turkey"),
  ("BY", "Belarus"),
  ("RS", "Serbia"),
  ("AL", "Albania"),
  ("MK", "N.Macedonia"),
  ("ME", "Montenegro"),
  ("BA", "Bosnia"),
  ("LU", "Luxembourg"),
  ("IS", "Iceland"),
  ("CY", "Cyprus"),
  ("MT", "Malta"),
  ("CA", "Canada"),
  ("MX", "Mexico"),
  ("JP", "Japan"),
  ("KR", "S.Korea"),
  ("AU", "Australia"),
  ("NZ", "New Zealand"),
  ("BR", "Brazil"),
  ("AR", "Argentina"),
  ("IN", "India"),
  ("SA", "Saudi Arabia"),
  ("AE", "UAE"),
  ("IL", "Israel"),
  ("EG", "Egypt")
]
def country_names2 : List (String × String) := [
  ("US", "USA"),
  ("GB", "UK"),
  ("DE", "Germany"),
  ("FR", "France"),
  ("IT", "Italy"),
  ("ES", "Spain"),
  ("PL", "Poland"),
  ("CZ", "Czechia"),
  ("UA", "Ukraine"),
  ("RU", "Russia"),
  ("CN", "China"),
  ("KP", "N.Korea"),
  ("NL", "Netherlands"),
  ("BE", "Belgium"),
  ("AT", "Austria"),
  ("CH", "Switzerland"),
  ("SE", "Sweden"),
  ("NO", "Norway"),
  ("DK", "Denmark"),
  ("FI", "Finland"),
  ("EG", "Egypt"),
  ("SA", "Saudi"),
  ("AE", "UAE"),
  ("IL", "Israel"),
  ("TR", "Turkey"),
  ("JP", "Japan"),
  ("KR", "S.Korea"),
  ("AU", "Australia"),
  ("CA", "Canada"),
  ("MX", "Mexico"),
  ("BR", "Brazil"),
  ("ZA", "S.Africa"),
  ("ZW", "Zimbabwe"),
  ("BY", "Belarus"),
  ("SY", "Syria"),
  ("IR", "Iran"),
  ("KZ", "Kazakhstan"),
  ("UZ", "Uzbekistan"),
  ("TM", "Turkmenistan")
]
/-- Rows 0 to 23 of the PRESIDENTIAL_AIRCRAFT literal. -/
def presidentialRows0 : List (String × PresidentialRecord) := [
  ("ae001f", PresidentialRecord.mk "USA" "Air Force One (VC-25A)" "82-8000" "VC25"),
  ("ae0020", PresidentialRecord.mk "USA" "Air Force One (VC-25A)" "92-9000" "VC25"),
  ("ae001c", PresidentialRecord.mk "USA" "Air Force Two (C-32A)" "98-0001" "C32"),
  ("ae001d", PresidentialRecord.mk "USA" "Air Force Two (C-32A)" "98-0002" "C32"),
  ("ae4a48", PresidentialRecord.mk "USA" "C-32A VIP Transport" "99-6143" "C32"),
  ("ae01fa", PresidentialRecord.mk "USA" "C-40B Executive Transport" "01-0040" "C40"),
  ("ae01fb", PresidentialRecord.mk "USA" "C-40B Executive Transport" "01-0041" "C40"),
  ("ae010c", PresidentialRecord.mk "USA" "C-37A Gulfstream VIP" "97-0400" "C37A"),
  ("ae010d", PresidentialRecord.mk "USA" "C-37A Gulfstream VIP" "97-0401" "C37A"),
  ("ae0100", PresidentialRecord.mk "USA" "C-37B Gulfstream VIP" "09-0525" "C37B"),
  ("ae0101", PresidentialRecord.mk "USA" "C-37B Gulfstream VIP" "09-0540" "C37B"),
  ("ae0414", PresidentialRecord.mk "USA" "E-4B Nightwatch NAOC" "73-1676" "E4B"),
  ("ae0415", PresidentialRecord.mk "USA" "E-4B Nightwatch NAOC" "74-0787" "E4B"),
  ("ae0416", PresidentialRecord.mk "USA" "E-4B Nightwatch NAOC" "75-0125" "E4B"),
  ("ae0417", PresidentialRecord.mk "USA" "E-4B Nightwatch NAOC" "75-0126" "E4B"),
  ("ae0419", PresidentialRecord.mk "USA" "E-6B Mercury TACAMO" "162782" "E6"),
  ("ae041a", PresidentialRecord.mk "USA" "E-6B Mercury TACAMO" "162783" "E6"),
  ("ae041b", PresidentialRecord.mk "USA" "E-6B Mercury TACAMO" "163918" "E6"),
  ("155026", PresidentialRecord.mk "Russia" "IL-96-300PU Presidential" "RA-96016" "IL96"),
  ("155027", PresidentialRecord.mk "Russia" "IL-96-300PU Presidential" "RA-96017" "IL96"),
  ("155028", PresidentialRecord.mk "Russia" "IL-96-300PU Presidential" "RA-96018" "IL96"),
  ("155029", PresidentialRecord.mk "Russia" "IL-96-300PU Presidential" "RA-96019" "IL96"),
  ("15502a", PresidentialRecord.mk "Russia" "IL-96-300PU Presidential" "RA-96020" "IL96"),
  ("15502b", PresidentialRecord.mk "Russia" "IL-96-300PU Presidential" "RA-96021" "IL96")
]

/-- Rows 24 to 47 of the PRESIDENTIAL_AIRCRAFT literal. -/
def presidentialRows1 : List (String × PresidentialRecord) := [
  ("15502c", PresidentialRecord.mk "Russia" "IL-96-300PU Presidential" "RA-96022" "IL96"),
  ("150d4e", PresidentialRecord.mk "Russia" "Tu-214PU Government" "RA-64517" "T214"),
  ("150d4f", PresidentialRecord.mk "Russia" "Tu-214PU Government" "RA-64520" "T214"),
  ("150125", PresidentialRecord.mk "Russia" "IL-96-400 Presidential" "RA-96102" "IL96"),
  ("155001", PresidentialRecord.mk "Russia" "Tu-214SR Government" "RA-64515" "T214"),
  ("155002", PresidentialRecord.mk "Russia" "Tu-214SR Government" "RA-64516" "T214"),
  ("145624", PresidentialRecord.mk "Russia" "Il-80 Doomsday Plane" "RA-86147" "IL86"),
  ("145625", PresidentialRecord.mk "Russia" "Il-80 Doomsday Plane" "RA-86148" "IL86"),
  ("780a71", PresidentialRecord.mk "China" "B747-8i Presidential" "B-2479" "B748"),
  ("780a72", PresidentialRecord.mk "China" "B747-8i VIP" "B-2480" "B748"),
  ("780b71", PresidentialRecord.mk "China" "B737-800 Government" "B-4026" "B738"),
  ("780b72", PresidentialRecord.mk "China" "B737-800 Government" "B-4027" "B738"),
  ("780c01", PresidentialRecord.mk "China" "A319CJ Government" "B-4090" "A319"),
  ("780c02", PresidentialRecord.mk "China" "A319CJ Government" "B-4091" "A319"),
  ("781011", PresidentialRecord.mk "China" "PLAAF VIP Transport" "B-4025" "B738"),
  ("720101", PresidentialRecord.mk "North Korea" "IL-62M Chammae-1" "P-618" "IL62"),
  ("720102", PresidentialRecord.mk "North Korea" "IL-62M Government" "P-885" "IL62"),
  ("720201", PresidentialRecord.mk "North Korea" "Tu-154 Government" "P-552" "T154"),
  ("720301", PresidentialRecord.mk "North Korea" "AN-148 Government" "P-671" "A148"),
  ("720302", PresidentialRecord.mk "North Korea" "AN-148 Government" "P-672" "A148"),
  ("508a28", PresidentialRecord.mk "Ukraine" "A319CJ Presidential" "UR-ABA" "A319"),
  ("508016", PresidentialRecord.mk "Ukraine" "IL-62M Government" "UR-86527" "IL62"),
  ("508017", PresidentialRecord.mk "Ukraine" "IL-62M Government" "UR-86528" "IL62"),
  ("508a01", PresidentialRecord.mk "Ukraine" "An-148 Government" "UR-UKR" "A148")
]

/-- Rows 48 to 71 of the PRESIDENTIAL_AIRCRAFT literal. -/
def presidentialRows2 : List (String × PresidentialRecord) := [
  ("498da4", PresidentialRecord.mk "Czech Rep" "A319CJ Government" "OK-GOV" "A319"),
  ("498d4a", PresidentialRecord.mk "Czech Rep" "CL-601 Challenger VIP" "OK-BYR" "CL60"),
  ("498012", PresidentialRecord.mk "Czech Rep" "A319 Air Force" "3085" "A319"),
  ("498001", PresidentialRecord.mk "Czech Rep" "CASA C-295M" "0452" "C295"),
  ("498002", PresidentialRecord.mk "Czech Rep" "CASA C-295M" "0453" "C295"),
  ("43c6c4", PresidentialRecord.mk "UK" "RAF Voyager A330 MRTT" "ZZ330" "A332"),
  ("43c6c5", PresidentialRecord.mk "UK" "RAF Voyager A330 MRTT" "ZZ331" "A332"),
  ("43c6c6", PresidentialRecord.mk "UK" "RAF Voyager A330 MRTT" "ZZ332" "A332"),
  ("43c6c7", PresidentialRecord.mk "UK" "RAF Voyager A330 MRTT" "ZZ333" "A332"),
  ("43c6c8", PresidentialRecord.mk "UK" "RAF Voyager A330 MRTT" "ZZ334" "A332"),
  ("43c6c9", PresidentialRecord.mk "UK" "RAF Voyager A330 MRTT" "ZZ335" "A332"),
  ("43c6d0", PresidentialRecord.mk "UK" "RAF Voyager A330 MRTT" "ZZ336" "A332"),
  ("43c2f0", PresidentialRecord.mk "UK" "BAe 146 Royal Flight" "ZE700" "B461"),
  ("43c2f1", PresidentialRecord.mk "UK" "BAe 146 Royal Flight" "ZE701" "B461"),
  ("3b75a6", PresidentialRecord.mk "France" "A330-200 Cotam 001" "F-RARF" "A332"),
  ("3b75a5", PresidentialRecord.mk "France" "A330-200 Cotam 002" "F-RARE" "A332"),
  ("3b7541", PresidentialRecord.mk "France" "Falcon 7X VIP" "F-RAFB" "FA7X"),
  ("3b7542", PresidentialRecord.mk "France" "Falcon 7X VIP" "F-RAFC" "FA7X"),
  ("3b7543", PresidentialRecord.mk "France" "Falcon 900 VIP" "F-RAFD" "F900"),
  ("3b7544", PresidentialRecord.mk "France" "Falcon 2000 VIP" "F-RAFE" "F2TH"),
  ("3b7545", PresidentialRecord.mk "France" "A340-200 VIP" "F-RAJB" "A342"),
  ("3b7601", PresidentialRecord.mk "France" "A330 MRTT Phenix" "F-UJCA" "A332"),
  ("3b7602", PresidentialRecord.mk "France" "A330 MRTT Phenix" "F-UJCB" "A332"),
  ("3f4615", PresidentialRecord.mk "Germany" "A350-900 Konrad Adenauer" "10+01" "A359")
]

/-- Rows 72 to 95 of the PRESIDENTIAL_AIRCRAFT literal. -/
def presidentialRows3 : List (String × PresidentialRecord) := [
  ("3f4616", PresidentialRecord.mk "Germany" "A350-900 Theodor Heuss" "10+02" "A359"),
  ("3f4617", PresidentialRecord.mk "Germany" "A350-900 Kurt Schumacher" "10+03" "A359"),
  ("3f4542", PresidentialRecord.mk "Germany" "A321-200 VIP" "15+01" "A321"),
  ("3f4543", PresidentialRecord.mk "Germany" "A321-200 VIP" "15+02" "A321"),
  ("3f4544", PresidentialRecord.mk "Germany" "A319CJ VIP" "15+03" "A319"),
  ("3f4545", PresidentialRecord.mk "Germany" "A319CJ VIP" "15+04" "A319"),
  ("3f457c", PresidentialRecord.mk "Germany" "Global 5000 VIP" "14+01" "GL5T"),
  ("3f457d", PresidentialRecord.mk "Germany" "Global 5000 VIP" "14+02" "GL5T"),
  ("3f457e", PresidentialRecord.mk "Germany" "Global 5000 VIP" "14+03" "GL5T"),
  ("3f457f", PresidentialRecord.mk "Germany" "Global 5000 VIP" "14+04" "GL5T"),
  ("33ff01", PresidentialRecord.mk "Italy" "A340-500 Presidential" "I-TALY" "A345"),
  ("33ff02", PresidentialRecord.mk "Italy" "A319CJ VIP" "MM62243" "A319"),
  ("33ff03", PresidentialRecord.mk "Italy" "A319CJ VIP" "MM62174" "A319"),
  ("33ff10", PresidentialRecord.mk "Italy" "Falcon 900EX VIP" "MM62210" "F900"),
  ("33ff11", PresidentialRecord.mk "Italy" "Falcon 900EX VIP" "MM62211" "F900"),
  ("33ff12", PresidentialRecord.mk "Italy" "Falcon 900EX VIP" "MM62244" "F900"),
  ("34318c", PresidentialRecord.mk "Spain" "A310-300 VIP" "T.22-1" "A310"),
  ("34318d", PresidentialRecord.mk "Spain" "A310-300 VIP" "T.22-2" "A310"),
  ("343191", PresidentialRecord.mk "Spain" "Falcon 900 VIP" "T.18-1" "F900"),
  ("343192", PresidentialRecord.mk "Spain" "Falcon 900 VIP" "T.18-2" "F900"),
  ("343193", PresidentialRecord.mk "Spain" "Falcon 900 VIP" "T.18-3" "F900"),
  ("343194", PresidentialRecord.mk "Spain" "Falcon 900 VIP" "T.18-4" "F900"),
  ("343195", PresidentialRecord.mk "Spain" "Falcon 900 VIP" "T.18-5" "F900"),
  ("3431a0", PresidentialRecord.mk "Spain" "A400M Atlas" "T.23-01" "A400")
]

/-- Rows 96 to 119 of the PRESIDENTIAL_AIRCRAFT literal. -/
def presidentialRows4 : List (String × PresidentialRecord) := [
  ("489702", PresidentialRecord.mk "Poland" "B737-800 Head of State" "SP-LIG" "B738"),
  ("489460", PresidentialRecord.mk "Poland" "Gulfstream G550 VIP" "0110" "G550"),
  ("489461", PresidentialRecord.mk "Poland" "Gulfstream G550 VIP" "0111" "G550"),
  ("48947e", PresidentialRecord.mk "Poland" "B737-800BBJ VIP" "0001" "B738"),
  ("48947f", PresidentialRecord.mk "Poland" "B737-800BBJ VIP" "0002" "B738"),
  ("484101", PresidentialRecord.mk "Netherlands" "B737-700BBJ Royal" "PH-GOV" "B737"),
  ("484102", PresidentialRecord.mk "Netherlands" "Gulfstream G650 VIP" "PH-GVI" "G650"),
  ("484110", PresidentialRecord.mk "Netherlands" "KDC-10 Tanker/VIP" "T-264" "DC10"),
  ("44d001", PresidentialRecord.mk "Belgium" "ERJ-135 VIP" "CE-01" "E135"),
  ("44d002", PresidentialRecord.mk "Belgium" "ERJ-145 VIP" "CE-02" "E145"),
  ("44d003", PresidentialRecord.mk "Belgium" "Falcon 7X VIP" "CD-01" "FA7X"),
  ("44d010", PresidentialRecord.mk "Belgium" "A321 Government" "CS-TRJ" "A321"),
  ("440101", PresidentialRecord.mk "Austria" "PC-12 VIP" "OE-EPM" "PC12"),
  ("440102", PresidentialRecord.mk "Austria" "C-130K Hercules" "8T-CA" "C130"),
  ("440103", PresidentialRecord.mk "Austria" "C-130K Hercules" "8T-CB" "C130"),
  ("440104", PresidentialRecord.mk "Austria" "C-130K Hercules" "8T-CC" "C130"),
  ("4b0011", PresidentialRecord.mk "Switzerland" "Citation Excel VIP" "T-784" "C56X"),
  ("4b0012", PresidentialRecord.mk "Switzerland" "PC-24 VIP" "T-786" "PC24"),
  ("4b0013", PresidentialRecord.mk "Switzerland" "Falcon 900 VIP" "T-785" "F900"),
  ("4a8001", PresidentialRecord.mk "Sweden" "Gulfstream G550 VIP" "102001" "G550"),
  ("4a8002", PresidentialRecord.mk "Sweden" "Gulfstream G550 VIP" "102002" "G550"),
  ("4a8003", PresidentialRecord.mk "Sweden" "S102B Korpen SIGINT" "102003" "G550"),
  ("478101", PresidentialRecord.mk "Norway" "Falcon 7X VIP" "053" "FA7X"),
  ("478102", PresidentialRecord.mk "Norway" "Falcon 7X VIP" "054" "FA7X")
]

/-- Rows 120 to 143 of the PRESIDENTIAL_AIRCRAFT literal. -/
def presidentialRows5 : List (String × PresidentialRecord) := [
  ("478103", PresidentialRecord.mk "Norway" "Falcon 20 EW" "041" "FA20"),
  ("459901", PresidentialRecord.mk "Denmark" "CL-604 Challenger VIP" "C-080" "CL60"),
  ("459902", PresidentialRecord.mk "Denmark" "CL-604 Challenger VIP" "C-168" "CL60"),
  ("459903", PresidentialRecord.mk "Denmark" "CL-604 Challenger VIP" "C-172" "CL60"),
  ("461e01", PresidentialRecord.mk "Finland" "CL-604 Challenger VIP" "CC-1" "CL60"),
  ("461e02", PresidentialRecord.mk "Finland" "LJ-35 Learjet VIP" "LJ-1" "LJ35"),
  ("461e03", PresidentialRecord.mk "Finland" "LJ-35 Learjet VIP" "LJ-2" "LJ35"),
  ("490501", PresidentialRecord.mk "Portugal" "Falcon 50 VIP" "17401" "FA50"),
  ("490502", PresidentialRecord.mk "Portugal" "Falcon 50 VIP" "17402" "FA50"),
  ("490503", PresidentialRecord.mk "Portugal" "Falcon 50 VIP" "17403" "FA50"),
  ("468c01", PresidentialRecord.mk "Greece" "ERJ-135 VIP" "145-208" "E135"),
  ("468c02", PresidentialRecord.mk "Greece" "ERJ-135 VIP" "145-209" "E135"),
  ("468c03", PresidentialRecord.mk "Greece" "Gulfstream V VIP" "678" "GLF5"),
  ("47a001", PresidentialRecord.mk "Hungary" "Falcon 7X VIP" "606" "FA7X"),
  ("47a002", PresidentialRecord.mk "Hungary" "Dassault 900LX VIP" "604" "F900"),
  ("47a003", PresidentialRecord.mk "Hungary" "A319CJ VIP" "605" "A319"),
  ("4a1001", PresidentialRecord.mk "Romania" "B737-700BBJ VIP" "YR-BBJ" "B737"),
  ("4a1002", PresidentialRecord.mk "Romania" "C-130H Hercules" "5930" "C130"),
  ("450501", PresidentialRecord.mk "Bulgaria" "Falcon 2000 VIP" "LZ-OOI" "F2TH"),
  ("450502", PresidentialRecord.mk "Bulgaria" "A319 Government" "LZ-AOB" "A319"),
  ("501c01", PresidentialRecord.mk "Croatia" "CL-604 Challenger VIP" "9A-CRO" "CL60"),
  ("4d0001", PresidentialRecord.mk "Slovenia" "Falcon 2000 VIP" "S5-BAV" "F2TH"),
  ("506c01", PresidentialRecord.mk "Slovakia" "Fokker 100 VIP" "OM-BYA" "F100"),
  ("506c02", PresidentialRecord.mk "Slovakia" "Fokker 100 VIP" "OM-BYB" "F100")
]

/-- Rows 144 to 167 of the PRESIDENTIAL_AIRCRAFT literal. -/
def presidentialRows6 : List (String × PresidentialRecord) := [
  ("511017", PresidentialRecord.mk "Estonia" "CRJ-700 Government" "ES-PVG" "CRJ7"),
  ("502c03", PresidentialRecord.mk "Latvia" "A220-300 Government" "YL-LFB" "BCS3"),
  ("502c17", PresidentialRecord.mk "Latvia" "L-410 Government" "YL-KAM" "L410"),
  ("503c01", PresidentialRecord.mk "Lithuania" "L-410 Government" "01" "L410"),
  ("503c02", PresidentialRecord.mk "Lithuania" "C-27J Spartan" "02" "C27J"),
  ("4c8001", PresidentialRecord.mk "Ireland" "LJ-45 Learjet VIP" "252" "LJ45"),
  ("4c8002", PresidentialRecord.mk "Ireland" "LJ-45 Learjet VIP" "253" "LJ45"),
  ("4c8003", PresidentialRecord.mk "Ireland" "G280 Government" "280" "G280"),
  ("4b8001", PresidentialRecord.mk "Turkey" "A330-200 VIP" "TC-TUR" "A332"),
  ("4b8002", PresidentialRecord.mk "Turkey" "A319CJ VIP" "TC-ANA" "A319"),
  ("4b8003", PresidentialRecord.mk "Turkey" "Gulfstream 550 VIP" "TC-DAP" "G550"),
  ("4b8004", PresidentialRecord.mk "Turkey" "B737-800BBJ VIP" "TC-ATA" "B738"),
  ("151db8", PresidentialRecord.mk "Belarus" "B737-800 Presidential" "EW-001PA" "B738"),
  ("151db9", PresidentialRecord.mk "Belarus" "B767 VIP" "EW-001PB" "B767"),
  ("151dc0", PresidentialRecord.mk "Belarus" "Tu-134 Government" "EW-65149" "T134"),
  ("4d0101", PresidentialRecord.mk "Serbia" "Falcon 900 VIP" "YU-FSS" "F900"),
  ("4d0102", PresidentialRecord.mk "Serbia" "ERJ-135 VIP" "YU-SRB" "E135"),
  ("501901", PresidentialRecord.mk "Albania" "AS365 Dauphin VIP" "ZA-BDF" "AS65"),
  ("4d0301", PresidentialRecord.mk "N. Macedonia" "LJ-60 Learjet VIP" "Z3-MKD" "LJ60"),
  ("4d0201", PresidentialRecord.mk "Montenegro" "Falcon 50 VIP" "4O-MNE" "FA50"),
  ("4d0401", PresidentialRecord.mk "Bosnia" "HUEY II VIP" "T9-HAD" "HUEY"),
  ("4b0501", PresidentialRecord.mk "Luxembourg" "LJ-45 Learjet VIP" "NAT-01" "LJ45"),
  ("4ccc01", PresidentialRecord.mk "Iceland" "DHC-8 Coast Guard" "TF-SIF" "DH8D"),
  ("4d8001", PresidentialRecord.mk "Cyprus" "A319CJ Government" "5B-CYP" "A319")
]

/-- Rows 168 to 168 of the PRESIDENTIAL_AIRCRAFT literal. -/
def presidentialRows7 : List (String × PresidentialRecord) := [
  ("4d9001", PresidentialRecord.mk "Malta" "B200 King Air VIP" "AS1428" "BE20")
]

/-- The PRESIDENTIAL_AIRCRAFT dict literal of poc_tracker.py (lines 48-400) as an
association list in source order. Its keys are pairwise distinct, so a plain
first-match lookup coincides with Python dict lookup. -/
def PRESIDENTIAL_AIRCRAFT : List (String × PresidentialRecord) :=
  presidentialRows0 ++ presidentialRows1 ++ presidentialRows2 ++ presidentialRows3 ++ presidentialRows4 ++ presidentialRows5 ++ presidentialRows6 ++ presidentialRows7
/-- Entries of the VIP_CALLSIGN_PATTERNS literal written before the first FAF key. -/
def vipPatternsPart1 : List (String × String) := [
  ("AF1", "USA"),
  ("AF2", "USA"),
  ("SAM", "USA"),
  ("EXEC", "USA"),
  ("VENUS", "USA"),
  ("RSD", "Russia"),
  ("ROSSIYA", "Russia"),
  ("RFF", "Russia"),
  ("RUSS", "Russia"),
  ("RFAF", "Russia"),
  ("CZAF", "Czech Rep"),
  ("CEF", "Czech Rep"),
  ("CZA", "Czech Rep"),
  ("UKR", "Ukraine"),
  ("UKRAINA", "Ukraine"),
  ("UKF", "Ukraine"),
  ("CCA", "China"),
  ("CHN", "China"),
  ("CHINA", "China"),
  ("CXA", "China"),
  ("KOR", "North Korea"),
  ("PRK", "North Korea"),
  ("RRR", "UK"),
  ("RFR", "UK"),
  ("KRF", "UK"),
  ("KITTY", "UK"),
  ("ASCOT", "UK"),
  ("COTAM", "France"),
  ("CTM", "France")
]
/-- Entries of the VIP_CALLSIGN_PATTERNS literal strictly between the two FAF keys. -/
def vipPatternsPart2 : List (String × String) := [
  ("FRF", "France"),
  ("GAF", "Germany"),
  ("GAFTT", "Germany"),
  ("GERM", "Germany"),
  ("IAM", "Italy"),
  ("ITAF", "Italy"),
  ("AME", "Spain"),
  ("SPANISH", "Spain"),
  ("SPA", "Spain"),
  ("PLF", "Poland"),
  ("POLISH", "Poland"),
  ("POL", "Poland"),
  ("NAF", "Netherlands"),
  ("NLD", "Netherlands"),
  ("BAF", "Belgium"),
  ("BEL", "Belgium"),
  ("AUA", "Austria"),
  ("OST", "Austria"),
  ("SUI", "Switzerland"),
  ("HEB", "Switzerland"),
  ("SVF", "Sweden"),
  ("SWE", "Sweden"),
  ("NOW", "Norway"),
  ("NOR", "Norway"),
  ("DAF", "Denmark"),
  ("DNK", "Denmark")
]
/-- Entries of the VIP_CALLSIGN_PATTERNS literal written after the second FAF key. -/
def vipPatternsPart3 : List (String × String) := [
  ("FIN", "Finland"),
  ("FINNAF", "Finland"),
  ("PAF", "Portugal"),
  ("POR", "Portugal"),
  ("HAF", "Greece"),
  ("GRC", "Greece"),
  ("HDF", "Hungary"),
  ("HUN", "Hungary"),
  ("ROF", "Romania"),
  ("ROU", "Romania"),
  ("BUF", "Bulgaria"),
  ("BGR", "Bulgaria"),
  ("HRZ", "Croatia"),
  ("CRO", "Croatia"),
  ("SVN", "Slovenia"),
  ("SLO", "Slovenia"),
  ("SLK", "Slovakia"),
  ("SVK", "Slovakia"),
  ("EST", "Estonia"),
  ("EEF", "Estonia"),
  ("LAT", "Latvia"),
  ("LVA", "Latvia"),
  ("LYF", "Lithuania"),
  ("LTU", "Lithuania"),
  ("IRL", "Ireland"),
  ("THK", "Turkey"),
  ("TUAF", "Turkey"),
  ("TCGF", "Turkey"),
  ("BRU", "Belarus"),
  ("BLR", "Belarus"),
  ("SRB", "Serbia"),
  ("YUG", "Serbia"),
  ("ALB", "Albania"),
  ("MKD", "N. Macedonia"),
  ("MNE", "Montenegro"),
  ("BIH", "Bosnia"),
  ("LUX", "Luxembourg"),
  ("ICE", "Iceland"),
  ("CYP", "Cyprus"),
  ("MLT", "Malta")
]
/-- The VIP_CALLSIGN_PATTERNS dict literal of poc_tracker.py (lines
403-450) as the sequence of key-value pairs in the order they are written.
The key "FAF" is written twice: once mapped to "France" (line 414) and once
mapped to "Finland" (line 426). -/
def vipCallsignPatternsSource : List (String × String) :=
  vipPatternsPart1 ++ ("FAF", "France") ::
    (vipPatternsPart2 ++ ("FAF", "Finland") :: vipPatternsPart3)

/-- The Python dict denoted by the VIP_CALLSIGN_PATTERNS literal: the
duplicate key FAF is collapsed to a single entry, at the position of its
first occurrence, carrying the value of its last occurrence. -/
def VIP_CALLSIGN_PATTERNS : List (String × String) :=
  pyDictOfList vipCallsignPatternsSource
/-- One aircraft object of the ADSB.One response. String fields model
`ac.get(key, "")` (absent becomes the empty default), numeric and position
fields model `ac.get(key)` (absent becomes `none`). The `alt_baro` field is
either the string sentinel "ground" or a numeric altitude. -/
structure RawAC where
  hex : String := ""
  flight : String := ""
  r : String := ""
  t : String := ""
  lat : Option ℚ := none
  lon : Option ℚ := none
  alt_baro : Option AltBaro := none
  gs : Option ℚ := none
  track : Option ℚ := none
  baro_rate : Option ℤ := none
  squawk : Option String := none
  seen : Option ℚ := none
deriving DecidableEq

/-- The JSON body of an ADSB.One reply: the "ac" list, and the "msg" field
set by the client on transport failure. -/
structure ApiResponse where
  ac : List RawAC := []
  msg : Option String := none
deriving DecidableEq

/-- ADSBOneClient.get_military_aircraft of both scripts: a successful
transport returns the parsed body; any requests.RequestException (timeout,
non-success status via raise_for_status, malformed JSON body) is caught and
replaced by an empty aircraft list plus the failure description. The
transport outcome is the Except argument. -/
def get_military_aircraft (transport : Except String ApiResponse) : ApiResponse :=
  match transport with
  | .ok body => body
  | .error e => { ac := [], msg := some e }

/-- get_location of poc_tracker.py / poc_tracker2.py, parameterised by the
country-code table that each script inlines. Returns the resolved name, the
updated cache, and how many times the external geocoder was invoked (the
invocation inside the try block counts even when it fails). -/
def getLocationCore (names : List (String × String)) (env : GeoEnv)
    (lat lon : Option ℚ) (cache : GeoCache) : String × GeoCache × Nat :=
  match lat, lon with
  | some la, some lo =>
    if env.rgAvailable then
      let key := cacheKey la lo
      match cache.lookup key with
      | some v => (v, cache, 0)
      | none =>
        match env.geocode la lo with
        | some cc =>
          let location := (names.lookup cc).getD cc
          (location, (key, location) :: cache, 1)
        | none => ("", cache, 1)
    else ("", cache, 0)
  | _, _ => ("", cache, 0)

/-- get_location of poc_tracker.py (the inlined table is country_names). -/
def get_location (env : GeoEnv) (lat lon : Option ℚ) (cache : GeoCache) :
    String × GeoCache × Nat :=
  getLocationCore country_names env lat lon cache

/-- get_location of poc_tracker2.py (its table is country_names2). -/
def get_location2 (env : GeoEnv) (lat lon : Option ℚ) (cache : GeoCache) :
    String × GeoCache × Nat :=
  getLocationCore country_names2 env lat lon cache

/-- The AircraftInfo dataclass of poc_tracker.py. -/
structure AircraftInfo where
  hex_code : String
  callsign : String
  registration : String
  aircraft_type : String
  country : String
  description : String
  latitude : Option ℚ
  longitude : Option ℚ
  altitude : Option ℤ
  ground_speed : Option ℚ
  heading : Option ℚ
  vertical_rate : Option ℤ
  squawk : String
  on_ground : Bool
  last_seen : ℚ
  over_country : String
deriving DecidableEq

/-- parse_aircraft of poc_tracker.py. The known-aircraft registry lookup is
`known_aircraft.get(hex_code, {})`; `ac_data.get("lat") and
ac_data.get("lon")` guards the geolocation call with Python float
truthiness. Returns the record, the updated geo cache and the number of
geocoder invocations. -/
def parse_aircraft (env : GeoEnv) (ac_data : RawAC)
    (known_aircraft : List (String × PresidentialRecord)) (cache : GeoCache) :
    AircraftInfo × GeoCache × Nat :=
  let hex_code := pyLower ac_data.hex
  let known := known_aircraft.lookup hex_code
  let geo :=
    if pyTruthy ac_data.lat && pyTruthy ac_data.lon then
      get_location env ac_data.lat ac_data.lon cache
    else ("", cache, 0)
  ({ hex_code := pyUpper hex_code
     callsign := pyOr (pyStrip ac_data.flight) "N/A"
     registration := pyOr ac_data.r ((known.map (·.registration)).getD "N/A")
     aircraft_type := pyOr ac_data.t ((known.map (·.type)).getD "N/A")
     country := (known.map (·.country)).getD "Unknown"
     description := (known.map (·.description)).getD "Military Aircraft"
     latitude := ac_data.lat
     longitude := ac_data.lon
     altitude :=
       match ac_data.alt_baro with
       | some .ground => some 0
       | some (.level n) => some n
       | none => none
     ground_speed := ac_data.gs
     heading := ac_data.track
     vertical_rate := ac_data.baro_rate
     squawk := ac_data.squawk.getD "N/A"
     on_ground := ac_data.alt_baro == some .ground
     last_seen := ac_data.seen.getD 0
     over_country := geo.1 }, geo.2.1, geo.2.2)

/-- The callsign-pattern scan of find_presidential_aircraft (poc_tracker.py
lines 819-823): iterate over VIP_CALLSIGN_PATTERNS.items() in dict iteration
order and return the country of the first pattern that is a literal prefix
of the (already normalised) callsign. -/
def matchVIPCallsign (callsign : String) : Option String :=
  (VIP_CALLSIGN_PATTERNS.find? (fun p => pyStartsWith callsign p.1)).map (·.2)

/-- The per-track loop of find_presidential_aircraft, with the seen-hex set
and the geo cache explicit. Registry hits are emitted from the registry
record; otherwise a callsign-pattern hit is emitted with the matched country
and a synthesised description; otherwise the track is dropped and its hex is
NOT added to the seen set. -/
def fpaGo (env : GeoEnv) : List RawAC → List String → GeoCache →
    List AircraftInfo × GeoCache
  | [], _, cache => ([], cache)
  | ac :: rest, seen_hex, cache =>
    let hex_code := pyLower ac.hex
    let callsign := pyUpper (pyStrip ac.flight)
    if hex_code ∈ seen_hex then fpaGo env rest seen_hex cache
    else if (PRESIDENTIAL_AIRCRAFT.lookup hex_code).isSome then
      let parsed := parse_aircraft env ac PRESIDENTIAL_AIRCRAFT cache
      let tail := fpaGo env rest (hex_code :: seen_hex) parsed.2.1
      (parsed.1 :: tail.1, tail.2)
    else
      match matchVIPCallsign callsign with
      | some matched_country =>
        let parsed := parse_aircraft env ac PRESIDENTIAL_AIRCRAFT cache
        let info := { parsed.1 with
                      country := matched_country
                      description := "VIP Flight (" ++ callsign ++ ")" }
        let tail := fpaGo env rest (hex_code :: seen_hex) parsed.2.1
        (info :: tail.1, tail.2)
      | none => fpaGo env rest seen_hex cache

/-- find_presidential_aircraft of poc_tracker.py: filter the API response
for presidential/VIP aircraft, starting from an empty seen set. -/
def find_presidential_aircraft (env : GeoEnv) (api_response : ApiResponse)
    (cache : GeoCache) : List AircraftInfo × GeoCache :=
  fpaGo env api_response.ac [] cache
/-- Table 1 of poc_tracker2.py: TOP_PRIORITY_CATEGORIES (a set). -/
def TOP_PRIORITY_CATEGORIES : List String := ["Dictator Alert", "Governments"]

/-- Table 2 of poc_tracker2.py: HIGH_PRIORITY_CATEGORIES (a set). -/
def HIGH_PRIORITY_CATEGORIES : List String :=
  ["Oxcart", "Special Forces", "Gunship"]

/-- The AircraftRecord dataclass of poc_tracker2.py. -/
structure AircraftRecord where
  icao_hex : String
  registration : String
  operator : String
  aircraft_type : String
  icao_type : String
  cmpg : String
  tag1 : String
  tag2 : String
  tag3 : String
  category : String
  link : String
deriving DecidableEq

/-- What reading the catalog file yields: the file may be absent (the
csv_path.exists() check fails), or it parses to a list of header-keyed
rows. -/
inductive CsvSource where
  | missing
  | rows (rs : List CsvRow)

/-- The AircraftRecord built from one accepted CSV row
(poc_tracker2.py lines 120-132). -/
def recordOfRow (icao : String) (row : CsvRow) : AircraftRecord :=
  { icao_hex := icao
    registration := rowGet row "$Registration"
    operator := rowGet row "$Operator"
    aircraft_type := rowGet row "$Type"
    icao_type := rowGet row "$ICAO Type"
    cmpg := rowGet row "#CMPG"
    tag1 := rowGet row "$Tag 1"
    tag2 := rowGet row "$#Tag 2"
    tag3 := rowGet row "$#Tag 3"
    category := rowGet row "Category"
    link := rowGet row "$#Link" }

/-- load_aircraft_database of poc_tracker2.py: a missing file yields the
empty registry; otherwise each row whose $ICAO value, lowercased and
stripped, is nonempty of length exactly 6 is assigned into the dict (a
later row with the same identifier overwrites), and every other row is
skipped silently. -/
def load_aircraft_database (csvFile : CsvSource) :
    List (String × AircraftRecord) :=
  match csvFile with
  | .missing => []
  | .rows rs =>
    rs.foldl
      (fun database row =>
        let icao := pyStrip (pyLower (rowGet row "$ICAO"))
        if icao ≠ "" ∧ icao.length = 6 then
          pyDictUpdate database icao (recordOfRow icao row)
        else database)
      []

/-- The TrackedAircraft dataclass of poc_tracker2.py. -/
structure TrackedAircraft where
  icao_hex : String
  callsign : String
  registration : String
  operator : String
  aircraft_type : String
  icao_type : String
  category : String
  cmpg : String
  tag1 : String
  tag2 : String
  tag3 : String
  link : String
  latitude : Option ℚ
  longitude : Option ℚ
  altitude : Option ℤ
  ground_speed : Option ℚ
  heading : Option ℚ
  squawk : String
  on_ground : Bool
  over_country : String
  is_priority : Bool
  is_high_interest : Bool
deriving DecidableEq

/-- parse_tracked_aircraft of poc_tracker2.py: a track whose lowercased hex
is not a key of the database yields `none` before anything else is looked
at; otherwise the track is merged with the database record, geolocating
only when both coordinates are truthy. Returns the optional aircraft, the
updated geo cache and the number of geocoder invocations. -/
def parse_tracked_aircraft (env : GeoEnv) (ac_data : RawAC)
    (db : List (String × AircraftRecord)) (cache : GeoCache) :
    Option TrackedAircraft × GeoCache × Nat :=
  let hex_code := pyLower ac_data.hex
  match db.lookup hex_code with
  | none => (none, cache, 0)
  | some record =>
    let geo :=
      if pyTruthy ac_data.lat && pyTruthy ac_data.lon then
        get_location2 env ac_data.lat ac_data.lon cache
      else ("", cache, 0)
    (some
      { icao_hex := pyUpper hex_code
        callsign := pyOr (pyStrip ac_data.flight) "N/A"
        registration := record.registration
        operator := if record.operator = "" then "Unknown"
                    else pyTake record.operator 35
        aircraft_type := if record.aircraft_type = "" then ""
                         else pyTake record.aircraft_type 25
        icao_type := pyOr ac_data.t record.icao_type
        category := record.category
        cmpg := record.cmpg
        tag1 := record.tag1
        tag2 := record.tag2
        tag3 := record.tag3
        link := record.link
        latitude := ac_data.lat
        longitude := ac_data.lon
        altitude :=
          match ac_data.alt_baro with
          | some .ground => some 0
          | some (.level n) => some n
          | none => none
        ground_speed := ac_data.gs
        heading := ac_data.track
        squawk := ac_data.squawk.getD ""
        on_ground := ac_data.alt_baro == some .ground
        over_country := geo.1
        is_priority := decide (record.category ∈ TOP_PRIORITY_CATEGORIES)
        is_high_interest :=
          decide (record.category ∈ HIGH_PRIORITY_CATEGORIES) },
      geo.2.1, geo.2.2)

/-- The matching loop of poc_tracker2.py main (lines 576-580): parse every
track against the database and keep the hits in source order. -/
def matchTrackedAircraft (env : GeoEnv) (db : List (String × AircraftRecord)) :
    List RawAC → GeoCache → List TrackedAircraft × GeoCache
  | [], cache => ([], cache)
  | ac :: rest, cache =>
    let parsed := parse_tracked_aircraft env ac db cache
    match parsed.1 with
    | some aircraft =>
      let tail := matchTrackedAircraft env db rest parsed.2.1
      (aircraft :: tail.1, tail.2)
    | none => matchTrackedAircraft env db rest parsed.2.1

/-- The load-fetch-classify stages of poc_tracker2.py main: load the
database, and when it is empty print an error and return early (modelled by
`none`); otherwise fetch and match, producing the classified list. -/
def runTracker2Main (csvFile : CsvSource)
    (transport : Except String ApiResponse) (env : GeoEnv) :
    Option (List TrackedAircraft) :=
  let database := load_aircraft_database csvFile
  if database.isEmpty then none
  else
    let response := get_military_aircraft transport
    some (matchTrackedAircraft env database response.ac []).1
/-- The tier rank of the display sort of poc_tracker.py (line 637):
0 for priority countries, 1 otherwise. -/
def tierRank (a : AircraftInfo) : ℕ :=
  if a.country ∈ PRIORITY_COUNTRIES then 0 else 1

/-- The sort key of display_rich (poc_tracker.py lines 636-640) as a
lexicographic triple. -/
def displayRichKey (a : AircraftInfo) : ℕ ×ₗ (String ×ₗ String) :=
  toLex (tierRank a, toLex (a.country, a.description))

/-- aircraft_list.sort(key=...) of display_rich: CPython list.sort is a
stable sort by the key, modelled by a stable merge sort with the
non-strict key comparison. -/
def sortAircraftForDisplay (aircraft_list : List AircraftInfo) :
    List AircraftInfo :=
  aircraft_list.mergeSort (fun a b => decide (displayRichKey a ≤ displayRichKey b))

/-- The sort key of display_table (poc_tracker2.py line 300): category,
then operator. -/
def displayTableKey (a : TrackedAircraft) : String ×ₗ String :=
  toLex (a.category, a.operator)

/-- aircraft_list.sort(key=lambda x: (x.category, x.operator)) of
display_table, again as a stable sort by the key. -/
def sortTrackedForDisplay (aircraft_list : List TrackedAircraft) :
    List TrackedAircraft :=
  aircraft_list.mergeSort (fun a b => decide (displayTableKey a ≤ displayTableKey b))

/-- The callsign normalisation applied before pattern matching
(poc_tracker.py line 805): strip whitespace, uppercase. -/
def normalizeCallsign (s : String) : String := pyUpper (pyStrip s)

/-- Formalisation of the matcher the specification describes (spec 4.3):
scan the rules in the order the author wrote them in the source literal,
duplicates included, and return the country of the first rule whose prefix
is a literal prefix of the normalised callsign. Stated from the
specification text, for comparison with matchVIPCallsign, which is read
from the code. -/
def specFirstMatchInDefinitionOrder (callsign : String) : Option String :=
  (vipCallsignPatternsSource.find?
    (fun p => pyStartsWith (normalizeCallsign callsign) p.1)).map (·.2)
/-! ### Concrete environments and inputs used in concrete evaluations -/

/-- Environment of a run without the reverse_geocoder module. -/
def envNoGeo : GeoEnv := { rgAvailable := false, geocode := fun _ _ => none }

/-- Environment whose geocoder always fails (raises or returns no
results). -/
def envGeoFail : GeoEnv := { rgAvailable := true, geocode := fun _ _ => none }

/-- Environment whose geocoder always resolves to the country code CZ. -/
def envGeoCZ : GeoEnv := { rgAvailable := true, geocode := fun _ _ => some "CZ" }

/-- A track with an identifier outside the registry and a callsign that
matches no VIP pattern. -/
def acDup1 : RawAC := { hex := "abc001", flight := "XYZ999" }

/-- A second track with the same identifier but a callsign matching the
AF1 pattern. -/
def acDup2 : RawAC := { hex := "abc001", flight := "AF1" }

/-- A snapshot carrying the same identifier twice with different
callsigns. -/
def respDup : ApiResponse := { ac := [acDup1, acDup2] }

/-- A track whose identifier is the first Air Force One registry key,
reported in uppercase by the source. -/
def acAF1 : RawAC := { hex := "AE001F" }

/-- A snapshot containing only the Air Force One track. -/
def respAF1 : ApiResponse := { ac := [acAF1] }

/-- The registry record stored under ae001f. -/
def recAF1 : PresidentialRecord :=
  PresidentialRecord.mk "USA" "Air Force One (VC-25A)" "82-8000" "VC25"

/-- A registry track at latitude zero, longitude 15: the position is
present, yet Python float truthiness treats the zero coordinate as
absent. -/
def acZeroLat : RawAC := { hex := "ae001f", lat := some 0, lon := some 15 }

/-- A catalog record in the Dictator Alert category. -/
def recDictator : AircraftRecord :=
  AircraftRecord.mk "aaa111" "REG-1" "Operator X" "Type X" "T1" "Gov"
    "" "" "" "Dictator Alert" ""

/-- A one-record database for concrete runs of the catalog variant. -/
def dbOne : List (String × AircraftRecord) := [("aaa111", recDictator)]

/-- A track whose lowercased identifier is the dbOne key. -/
def acDb : RawAC := { hex := "AAA111" }

/-- A track whose identifier is in no database. -/
def acUnknown : RawAC := { hex := "ffffff" }

/-- A catalog row whose identifier has length 6 but is not hexadecimal. -/
def rowBadHex : CsvRow := [("$ICAO", "ZZZZZZ")]

/-- A registry track with a fully reported (nonzero) position. -/
def acPos : RawAC := { hex := "ae001f", lat := some 50, lon := some 15 }

/-- The single aircraft the catalog variant emits for dbOne and acDb. -/
def trackedOne : TrackedAircraft :=
  TrackedAircraft.mk "AAA111" "N/A" "REG-1" "Operator X" "Type X" "T1"
    "Dictator Alert" "Gov" "" "" "" "" none none none none none ""
    false "" true false
/-! ### Character and string case lemmas

parse_aircraft and parse_tracked_aircraft store `hex.lower().upper()` while
deduplication and database lookups key on `hex.lower()`; these lemmas let the
two be related. -/

theorem char_toNat_ofNat {n : ℕ} (h : n < 55296) : (Char.ofNat n).toNat = n := by
  rw [Char.ofNat, dif_pos (Or.inl h)]
  rfl

theorem char_lower_upper_lower (c : Char) :
    c.toLower.toUpper.toLower = c.toLower := by
  by_cases h : 65 ≤ c.toNat ∧ c.toNat ≤ 90
  · have hl : c.toLower = Char.ofNat (c.toNat + 32) := by
      unfold Char.toLower
      rw [if_pos ⟨h.1, h.2⟩]
    have ht : c.toLower.toNat = c.toNat + 32 := by
      rw [hl]; exact char_toNat_ofNat (by omega)
    have hu : c.toLower.toUpper = c := by
      unfold Char.toUpper
      rw [if_pos ⟨by omega, by omega⟩, ht]
      have h32 : c.toNat + 32 - 32 = c.toNat := by omega
      rw [h32, Char.ofNat_toNat]
    rw [hu]
  · have hl : c.toLower = c := by
      unfold Char.toLower
      rw [if_neg (fun hc => h ⟨hc.1, hc.2⟩)]
    rw [hl]
    by_cases h2 : 97 ≤ c.toNat ∧ c.toNat ≤ 122
    · have hu : c.toUpper = Char.ofNat (c.toNat - 32) := by
        unfold Char.toUpper
        rw [if_pos ⟨h2.1, h2.2⟩]
      have ht : c.toUpper.toNat = c.toNat - 32 := by
        rw [hu]; exact char_toNat_ofNat (by omega)
      unfold Char.toLower
      rw [if_pos ⟨by omega, by omega⟩, ht]
      have hb : c.toNat - 32 + 32 = c.toNat := by omega
      rw [hb, Char.ofNat_toNat]
    · have hu : c.toUpper = c := by
        unfold Char.toUpper
        rw [if_neg (fun hc => h2 ⟨hc.1, hc.2⟩)]
      rw [hu, hl]

theorem py_lower_upper_lower (s : String) :
    pyLower (pyUpper (pyLower s)) = pyLower s := by
  simp only [pyLower, pyUpper]
  rw [List.map_map, List.map_map]
  exact congrArg String.mk
    (List.map_congr_left (fun c _ => char_lower_upper_lower c))

theorem py_lower_upper_inj {s t : String}
    (h : pyUpper (pyLower s) = pyUpper (pyLower t)) : pyLower s = pyLower t := by
  have h2 := congrArg pyLower h
  rwa [py_lower_upper_lower, py_lower_upper_lower] at h2

/-! ### Prefix lemmas for the callsign matcher -/

theorem isPfx_total : ∀ (n a b : List Char), isPfx a n = true → isPfx b n = true →
    isPfx a b = true ∨ isPfx b a = true
  | _, [], _ => fun _ _ => Or.inl rfl
  | _, _ :: _, [] => fun _ _ => Or.inr rfl
  | [], _ :: _, _ :: _ => fun h _ => by simp [isPfx] at h
  | c :: n, a :: as, b :: bs => fun ha hb => by
    simp only [isPfx, Bool.and_eq_true, beq_iff_eq] at ha hb ⊢
    rcases isPfx_total n as bs ha.2 hb.2 with h | h
    · exact Or.inl ⟨ha.1.trans hb.1.symm, h⟩
    · exact Or.inr ⟨hb.1.trans ha.1.symm, h⟩

/-- If some rule with prefix `key` matches the callsign `n`, then no rule
whose prefix is prefix-incomparable with `key` can match `n`: two prefixes
of one string are always comparable. -/
theorem find?_startsWith_none {n key : String} (ps : List (String × String))
    (hk : pyStartsWith n key = true)
    (hps : ∀ p ∈ ps, isPfx key.data p.1.data = false ∧
      isPfx p.1.data key.data = false) :
    ps.find? (fun p => pyStartsWith n p.1) = none := by
  rw [List.find?_eq_none]
  intro p hp hmatch
  rcases isPfx_total n.data key.data p.1.data hk hmatch with h | h
  · rw [(hps p hp).1] at h
    exact Bool.false_ne_true h
  · rw [(hps p hp).2] at h
    exact Bool.false_ne_true h

/-! ### Stable sort by a key

CPython list.sort(key=k) is a stable sort; it is modelled by mergeSort with
the comparison `k a ≤ k b`. These lemmas give the three facts the display
ordering needs: the output is a permutation, it is pairwise ordered by the
key, and the elements of any key class keep their source order. -/

section StableSortByKey

variable {α κ : Type} [LinearOrder κ]

theorem mergeSortByKey_perm (key : α → κ) (l : List α) :
    List.Perm (l.mergeSort (fun a b => decide (key a ≤ key b))) l :=
  List.mergeSort_perm l _

theorem mergeSortByKey_pairwise (key : α → κ) (l : List α) :
    (l.mergeSort (fun a b => decide (key a ≤ key b))).Pairwise
      (fun a b => key a ≤ key b) := by
  refine List.Pairwise.imp (fun h' => of_decide_eq_true h')
    (List.sorted_mergeSort ?_ ?_ l)
  · intro a b c hab hbc
    simp only [decide_eq_true_eq] at hab hbc ⊢
    exact le_trans hab hbc
  · intro a b
    simp only [Bool.or_eq_true, decide_eq_true_eq]
    exact le_total _ _

theorem mergeSortByKey_filter (key : α → κ) (l : List α) (p : α → Bool)
    (hp : ∀ a b, p a = true → p b = true → key a ≤ key b) :
    (l.mergeSort (fun a b => decide (key a ≤ key b))).filter p = l.filter p := by
  have trans : ∀ (a b c : α), decide (key a ≤ key b) → decide (key b ≤ key c) →
      decide (key a ≤ key c) := fun a b c hab hbc => by
    simp only [decide_eq_true_eq] at hab hbc ⊢
    exact le_trans hab hbc
  have total : ∀ (a b : α),
      (decide (key a ≤ key b) || decide (key b ≤ key a)) = true := fun a b => by
    simp only [Bool.or_eq_true, decide_eq_true_eq]
    exact le_total _ _
  have hpw : (l.filter p).Pairwise
      (fun a b => decide (key a ≤ key b) = true) :=
    List.pairwise_of_forall_mem_list (fun a ha b hb =>
      decide_eq_true (hp a b (List.of_mem_filter ha) (List.of_mem_filter hb)))
  have hc : List.Sublist (l.filter p)
      (l.mergeSort (fun a b => decide (key a ≤ key b))) :=
    List.sublist_mergeSort trans total hpw (List.filter_sublist l)
  have hself : (l.filter p).filter p = l.filter p :=
    List.filter_eq_self.mpr (fun a ha => List.of_mem_filter ha)
  have hsub2 : List.Sublist (l.filter p)
      ((l.mergeSort (fun a b => decide (key a ≤ key b))).filter p) := by
    rw [← hself]
    exact hc.filter p
  have hlen : ((l.mergeSort (fun a b => decide (key a ≤ key b))).filter p).length
      = (l.filter p).length :=
    ((List.mergeSort_perm l _).filter p).length_eq
  exact (hsub2.eq_of_length hlen.symm).symm

end StableSortByKey
/-! ### Python dict lemmas and the catalog load filter -/

theorem lookup_mapUpdate {α : Type} (k : String) (v : α) :
    ∀ (d : List (String × α)) (k' : String),
    ((d.map (fun p => if p.1 == k then (k, v) else p)).lookup k').isSome =
      (d.lookup k').isSome
  | [], _ => rfl
  | ⟨pk, pv⟩ :: rest, k' => by
    have ih := lookup_mapUpdate k v rest k'
    simp only [List.map_cons]
    by_cases hpk : pk = k
    · rw [if_pos (by simp [hpk])]
      by_cases hk' : k' = k
      · have h1 : (k' == k) = true := by simp [hk']
        have h2 : (k' == pk) = true := by simp [hk', hpk]
        simp only [List.lookup_cons, h1, h2, Option.isSome_some]
      · have h1 : (k' == k) = false := by
          rw [beq_eq_false_iff_ne]
          exact hk'
        have h2 : (k' == pk) = false := by
          rw [beq_eq_false_iff_ne]
          exact fun h => hk' (h.trans hpk)
        simp only [List.lookup_cons, h1, h2]
        exact ih
    · rw [if_neg (by simp [hpk])]
      by_cases hk' : k' = pk
      · have h2 : (k' == pk) = true := by simp [hk']
        simp only [List.lookup_cons, h2]
      · have h2 : (k' == pk) = false := by
          rw [beq_eq_false_iff_ne]
          exact hk'
        simp only [List.lookup_cons, h2]
        exact ih

theorem lookup_pyDictUpdate_isSome {α : Type} (d : List (String × α))
    (k k' : String) (v : α) :
    ((pyDictUpdate d k v).lookup k').isSome = true ↔
      k' = k ∨ (d.lookup k').isSome = true := by
  unfold pyDictUpdate
  by_cases hfind : (d.find? (fun p => p.1 == k)).isSome = true
  · rw [if_pos hfind, lookup_mapUpdate]
    constructor
    · exact Or.inr
    · rintro (heq | h)
      · obtain ⟨q, hq⟩ := Option.isSome_iff_exists.mp hfind
        have hqmem := List.mem_of_find?_eq_some hq
        have hqk := List.find?_some hq
        simp only [beq_iff_eq] at hqk
        rw [heq]
        simp only [List.lookup_isSome_iff, beq_iff_eq]
        exact ⟨q, hqmem, hqk.symm⟩
      · exact h
  · rw [if_neg hfind, List.lookup_append]
    simp only [Option.isSome_or, Bool.or_eq_true]
    constructor
    · rintro (h | h)
      · exact Or.inr h
      · left
        simpa using h
    · rintro (heq | h)
      · right
        rw [heq]
        simp
      · exact Or.inl h

theorem string_ne_empty_of_length_six {s : String} (h : s.length = 6) :
    s ≠ "" := by
  intro he
  rw [he] at h
  simp [String.length] at h

theorem load_foldl_lookup (key : String) : ∀ (rs : List CsvRow)
    (db : List (String × AircraftRecord)),
    (((rs.foldl
        (fun database row =>
          let icao := pyStrip (pyLower (rowGet row "$ICAO"))
          if icao ≠ "" ∧ icao.length = 6 then
            pyDictUpdate database icao (recordOfRow icao row)
          else database) db)).lookup key).isSome = true ↔
      ((db.lookup key).isSome = true ∨
        (key.length = 6 ∧ ∃ row ∈ rs, pyStrip (pyLower (rowGet row "$ICAO")) = key))
  | [], db => by simp
  | row :: rest, db => by
    rw [List.foldl_cons]
    by_cases hc : pyStrip (pyLower (rowGet row "$ICAO")) ≠ "" ∧
        (pyStrip (pyLower (rowGet row "$ICAO"))).length = 6
    · simp only [if_pos hc]
      rw [load_foldl_lookup key rest _]
      rw [lookup_pyDictUpdate_isSome]
      constructor
      · rintro ((heq | h) | h)
        · exact Or.inr ⟨by rw [heq]; exact hc.2, row, by simp, heq.symm⟩
        · exact Or.inl h
        · refine Or.inr ⟨h.1, ?_⟩
          obtain ⟨r, hr, hrk⟩ := h.2
          exact ⟨r, by simp [hr], hrk⟩
      · rintro (h | ⟨hlen, r, hr, hrk⟩)
        · exact Or.inl (Or.inr h)
        · rcases List.mem_cons.mp hr with rfl | hr'
          · exact Or.inl (Or.inl hrk.symm)
          · exact Or.inr ⟨hlen, r, hr', hrk⟩
    · simp only [if_neg hc]
      rw [load_foldl_lookup key rest _]
      constructor
      · rintro (h | h)
        · exact Or.inl h
        · refine Or.inr ⟨h.1, ?_⟩
          obtain ⟨r, hr, hrk⟩ := h.2
          exact ⟨r, by simp [hr], hrk⟩
      · rintro (h | ⟨hlen, r, hr, hrk⟩)
        · exact Or.inl h
        · rcases List.mem_cons.mp hr with rfl | hr'
          · exact absurd ⟨by rw [hrk]; exact string_ne_empty_of_length_six hlen,
              by rw [hrk]; exact hlen⟩ hc
          · exact Or.inr ⟨hlen, r, hr', hrk⟩
/-! ### The callsign pattern table: dict semantics and resolution -/

/-- Evaluation of the Python dict built from the VIP_CALLSIGN_PATTERNS
literal: the duplicate FAF key keeps the position of its first occurrence
(line 414, among the France rules) but carries the value of its last
occurrence, Finland (line 426). -/
theorem vip_dict_eval : VIP_CALLSIGN_PATTERNS =
    vipPatternsPart1 ++ ("FAF", "Finland") ::
      (vipPatternsPart2 ++ vipPatternsPart3) := by decide

theorem vipPart1_incomparable_FAF : ∀ p ∈ vipPatternsPart1,
    isPfx ("FAF" : String).data p.1.data = false ∧
      isPfx p.1.data ("FAF" : String).data = false := by decide

/-- C3 (amended): the pattern matcher normalises the callsign and then
returns the country of the first entry of the pattern dict, in dict
iteration order, whose prefix is a literal prefix of the callsign. Because
the pattern literal writes the key FAF twice (France first, Finland later),
the dict holds a single FAF entry, at the France position, with the value
Finland; hence every normalised callsign starting with FAF resolves to
Finland, and every other callsign resolves exactly as the first matching
rule in author definition order prescribes. -/
theorem callsign_rule_resolution (cs : String) :
    matchVIPCallsign (normalizeCallsign cs) =
      if pyStartsWith (normalizeCallsign cs) "FAF" = true then some "Finland"
      else specFirstMatchInDefinitionOrder cs := by
  unfold matchVIPCallsign specFirstMatchInDefinitionOrder
    vipCallsignPatternsSource
  rw [vip_dict_eval]
  by_cases h : pyStartsWith (normalizeCallsign cs) "FAF" = true
  · rw [if_pos h]
    have h1 : vipPatternsPart1.find?
        (fun p => pyStartsWith (normalizeCallsign cs) p.1) = none :=
      find?_startsWith_none _ h vipPart1_incomparable_FAF
    rw [List.find?_append, h1, Option.none_or,
      List.find?_cons_of_pos _ (by exact h)]
    rfl
  · rw [if_neg h]
    have hb : pyStartsWith (normalizeCallsign cs) "FAF" = false :=
      Bool.not_eq_true _ ▸ Bool.of_not_eq_true h
    rw [List.find?_append, List.find?_append,
      List.find?_cons_of_neg _ (by simp [hb]),
      List.find?_cons_of_neg _ (by simp [hb]),
      List.find?_append, List.find?_append,
      List.find?_cons_of_neg _ (by simp [hb])]

/-- C3 (counterexample): for the callsign FAF123 the matcher returns
Finland, while the first matching rule in author definition order is the
France rule written at line 414; the later duplicate key silently
overwrote it. -/
theorem callsign_rule_counterexample :
    matchVIPCallsign (normalizeCallsign "FAF123") = some "Finland" ∧
    specFirstMatchInDefinitionOrder "FAF123" = some "France" ∧
    matchVIPCallsign (normalizeCallsign "FAF123") ≠
      specFirstMatchInDefinitionOrder "FAF123" := by decide
/-! ### The find_presidential_aircraft loop: provenance and deduplication -/

theorem parse_aircraft_hex_code (env : GeoEnv) (ac : RawAC)
    (known : List (String × PresidentialRecord)) (cache : GeoCache) :
    (parse_aircraft env ac known cache).1.hex_code = pyUpper (pyLower ac.hex) :=
  rfl

theorem parse_aircraft_country (env : GeoEnv) (ac : RawAC)
    (known : List (String × PresidentialRecord)) (cache : GeoCache) :
    (parse_aircraft env ac known cache).1.country =
      ((known.lookup (pyLower ac.hex)).map (·.country)).getD "Unknown" :=
  rfl

theorem parse_aircraft_description (env : GeoEnv) (ac : RawAC)
    (known : List (String × PresidentialRecord)) (cache : GeoCache) :
    (parse_aircraft env ac known cache).1.description =
      ((known.lookup (pyLower ac.hex)).map (·.description)).getD
        "Military Aircraft" :=
  rfl

theorem fpaGo_cons_seen (env : GeoEnv) (ac : RawAC) (rest : List RawAC)
    (seen : List String) (cache : GeoCache) (h : pyLower ac.hex ∈ seen) :
    fpaGo env (ac :: rest) seen cache = fpaGo env rest seen cache := by
  simp only [fpaGo, if_pos h]

theorem fpaGo_cons_registry (env : GeoEnv) (ac : RawAC) (rest : List RawAC)
    (seen : List String) (cache : GeoCache)
    (h1 : pyLower ac.hex ∉ seen)
    (h2 : (PRESIDENTIAL_AIRCRAFT.lookup (pyLower ac.hex)).isSome = true) :
    fpaGo env (ac :: rest) seen cache =
      ((parse_aircraft env ac PRESIDENTIAL_AIRCRAFT cache).1 ::
        (fpaGo env rest (pyLower ac.hex :: seen)
          (parse_aircraft env ac PRESIDENTIAL_AIRCRAFT cache).2.1).1,
       (fpaGo env rest (pyLower ac.hex :: seen)
          (parse_aircraft env ac PRESIDENTIAL_AIRCRAFT cache).2.1).2) := by
  simp only [fpaGo, if_neg h1, if_pos h2]

theorem fpaGo_cons_pattern (env : GeoEnv) (ac : RawAC) (rest : List RawAC)
    (seen : List String) (cache : GeoCache) (mc : String)
    (h1 : pyLower ac.hex ∉ seen)
    (h2 : ¬(PRESIDENTIAL_AIRCRAFT.lookup (pyLower ac.hex)).isSome = true)
    (hm : matchVIPCallsign (pyUpper (pyStrip ac.flight)) = some mc) :
    fpaGo env (ac :: rest) seen cache =
      ({ (parse_aircraft env ac PRESIDENTIAL_AIRCRAFT cache).1 with
          country := mc
          description :=
            "VIP Flight (" ++ pyUpper (pyStrip ac.flight) ++ ")" } ::
        (fpaGo env rest (pyLower ac.hex :: seen)
          (parse_aircraft env ac PRESIDENTIAL_AIRCRAFT cache).2.1).1,
       (fpaGo env rest (pyLower ac.hex :: seen)
          (parse_aircraft env ac PRESIDENTIAL_AIRCRAFT cache).2.1).2) := by
  simp only [fpaGo, if_neg h1, if_neg h2, hm]

theorem fpaGo_cons_nomatch (env : GeoEnv) (ac : RawAC) (rest : List RawAC)
    (seen : List String) (cache : GeoCache)
    (h1 : pyLower ac.hex ∉ seen)
    (h2 : ¬(PRESIDENTIAL_AIRCRAFT.lookup (pyLower ac.hex)).isSome = true)
    (hm : matchVIPCallsign (pyUpper (pyStrip ac.flight)) = none) :
    fpaGo env (ac :: rest) seen cache = fpaGo env rest seen cache := by
  simp only [fpaGo, if_neg h1, if_neg h2, hm]

/-- Every entry the loop emits was emitted while its lowercased hex was not
yet in the seen set. -/
theorem fpaGo_not_seen (env : GeoEnv) : ∀ (acs : List RawAC)
    (seen : List String) (cache : GeoCache),
    ∀ e ∈ (fpaGo env acs seen cache).1, ∃ s : String,
      e.hex_code = pyUpper (pyLower s) ∧ pyLower s ∉ seen := by
  intro acs
  induction acs with
  | nil => intro seen cache e he; simp [fpaGo] at he
  | cons ac rest ih =>
    intro seen cache e he
    by_cases h1 : pyLower ac.hex ∈ seen
    · rw [fpaGo_cons_seen env ac rest seen cache h1] at he
      exact ih seen cache e he
    by_cases h2 : (PRESIDENTIAL_AIRCRAFT.lookup (pyLower ac.hex)).isSome = true
    · rw [fpaGo_cons_registry env ac rest seen cache h1 h2] at he
      rcases List.mem_cons.mp he with rfl | he'
      · exact ⟨ac.hex, parse_aircraft_hex_code env ac PRESIDENTIAL_AIRCRAFT cache,
          h1⟩
      · obtain ⟨s, hs1, hs2⟩ := ih _ _ e he'
        exact ⟨s, hs1, fun hmem => hs2 (List.mem_cons_of_mem _ hmem)⟩
    cases hm : matchVIPCallsign (pyUpper (pyStrip ac.flight)) with
    | some mc =>
      rw [fpaGo_cons_pattern env ac rest seen cache mc h1 h2 hm] at he
      rcases List.mem_cons.mp he with rfl | he'
      · exact ⟨ac.hex, parse_aircraft_hex_code env ac PRESIDENTIAL_AIRCRAFT cache,
          h1⟩
      · obtain ⟨s, hs1, hs2⟩ := ih _ _ e he'
        exact ⟨s, hs1, fun hmem => hs2 (List.mem_cons_of_mem _ hmem)⟩
    | none =>
      rw [fpaGo_cons_nomatch env ac rest seen cache h1 h2 hm] at he
      exact ih seen cache e he

/-- No two entries the loop emits carry the same displayed identifier. -/
theorem fpaGo_nodup (env : GeoEnv) : ∀ (acs : List RawAC)
    (seen : List String) (cache : GeoCache),
    (fpaGo env acs seen cache).1.Pairwise
      (fun a b => a.hex_code ≠ b.hex_code) := by
  intro acs
  induction acs with
  | nil => intro seen cache; simp [fpaGo]
  | cons ac rest ih =>
    intro seen cache
    by_cases h1 : pyLower ac.hex ∈ seen
    · rw [fpaGo_cons_seen env ac rest seen cache h1]
      exact ih seen cache
    have head_ne : ∀ (cache' : GeoCache) (e : AircraftInfo),
        e ∈ (fpaGo env rest (pyLower ac.hex :: seen) cache').1 →
        pyUpper (pyLower ac.hex) ≠ e.hex_code := by
      intro cache' e he heq
      obtain ⟨s, hs1, hs2⟩ := fpaGo_not_seen env rest _ cache' e he
      rw [hs1] at heq
      exact hs2 (by rw [← py_lower_upper_inj heq]; exact List.mem_cons_self _ _)
    by_cases h2 : (PRESIDENTIAL_AIRCRAFT.lookup (pyLower ac.hex)).isSome = true
    · rw [fpaGo_cons_registry env ac rest seen cache h1 h2]
      refine List.pairwise_cons.mpr ⟨?_, ih _ _⟩
      intro e he
      rw [parse_aircraft_hex_code]
      exact head_ne _ e he
    cases hm : matchVIPCallsign (pyUpper (pyStrip ac.flight)) with
    | some mc =>
      rw [fpaGo_cons_pattern env ac rest seen cache mc h1 h2 hm]
      refine List.pairwise_cons.mpr ⟨?_, ih _ _⟩
      intro e he
      have : ({ (parse_aircraft env ac PRESIDENTIAL_AIRCRAFT cache).1 with
          country := mc
          description :=
            "VIP Flight (" ++ pyUpper (pyStrip ac.flight) ++ ")" }).hex_code =
          pyUpper (pyLower ac.hex) := parse_aircraft_hex_code env ac PRESIDENTIAL_AIRCRAFT cache
      rw [this]
      exact head_ne _ e he
    | none =>
      rw [fpaGo_cons_nomatch env ac rest seen cache h1 h2 hm]
      exact ih seen cache

/-- Every emitted entry comes from some track of the snapshot; a track whose
hex is a registry key contributes the registry country and description, and
a pattern-emitted entry always has a hex outside the registry. -/
theorem fpaGo_provenance (env : GeoEnv) : ∀ (acs : List RawAC)
    (seen : List String) (cache : GeoCache),
    ∀ e ∈ (fpaGo env acs seen cache).1, ∃ ac ∈ acs,
      e.hex_code = pyUpper (pyLower ac.hex) ∧
      ((∃ r, PRESIDENTIAL_AIRCRAFT.lookup (pyLower ac.hex) = some r ∧
          e.country = r.country ∧ e.description = r.description) ∨
        PRESIDENTIAL_AIRCRAFT.lookup (pyLower ac.hex) = none) := by
  intro acs
  induction acs with
  | nil => intro seen cache e he; simp [fpaGo] at he
  | cons ac rest ih =>
    intro seen cache e he
    by_cases h1 : pyLower ac.hex ∈ seen
    · rw [fpaGo_cons_seen env ac rest seen cache h1] at he
      obtain ⟨ac', hmem, hrest⟩ := ih seen cache e he
      exact ⟨ac', List.mem_cons_of_mem _ hmem, hrest⟩
    by_cases h2 : (PRESIDENTIAL_AIRCRAFT.lookup (pyLower ac.hex)).isSome = true
    · rw [fpaGo_cons_registry env ac rest seen cache h1 h2] at he
      rcases List.mem_cons.mp he with rfl | he'
      · obtain ⟨r, hr⟩ := Option.isSome_iff_exists.mp h2
        refine ⟨ac, List.mem_cons_self _ _,
          parse_aircraft_hex_code env ac PRESIDENTIAL_AIRCRAFT cache, Or.inl ⟨r, hr, ?_, ?_⟩⟩
        · rw [parse_aircraft_country, hr]
          rfl
        · rw [parse_aircraft_description, hr]
          rfl
      · obtain ⟨ac', hmem, hrest⟩ := ih _ _ e he'
        exact ⟨ac', List.mem_cons_of_mem _ hmem, hrest⟩
    cases hm : matchVIPCallsign (pyUpper (pyStrip ac.flight)) with
    | some mc =>
      rw [fpaGo_cons_pattern env ac rest seen cache mc h1 h2 hm] at he
      rcases List.mem_cons.mp he with rfl | he'
      · refine ⟨ac, List.mem_cons_self _ _,
          parse_aircraft_hex_code env ac PRESIDENTIAL_AIRCRAFT cache, Or.inr ?_⟩
        exact Option.not_isSome_iff_eq_none.mp h2
      · obtain ⟨ac', hmem, hrest⟩ := ih _ _ e he'
        exact ⟨ac', List.mem_cons_of_mem _ hmem, hrest⟩
    | none =>
      rw [fpaGo_cons_nomatch env ac rest seen cache h1 h2 hm] at he
      obtain ⟨ac', hmem, hrest⟩ := ih seen cache e he
      exact ⟨ac', List.mem_cons_of_mem _ hmem, hrest⟩

/-- A track that matches the registry or a callsign pattern, and whose hex
the loop has not yet seen, contributes an entry with its identifier. -/
theorem fpaGo_match_exists (env : GeoEnv) : ∀ (acs : List RawAC)
    (seen : List String) (cache : GeoCache) (t : RawAC), t ∈ acs →
    ((PRESIDENTIAL_AIRCRAFT.lookup (pyLower t.hex)).isSome = true ∨
      (matchVIPCallsign (pyUpper (pyStrip t.flight))).isSome = true) →
    pyLower t.hex ∉ seen →
    ∃ e ∈ (fpaGo env acs seen cache).1,
      e.hex_code = pyUpper (pyLower t.hex) := by
  intro acs
  induction acs with
  | nil => intro seen cache t ht; simp at ht
  | cons ac rest ih =>
    intro seen cache t ht hmatch hseen
    by_cases h1 : pyLower ac.hex ∈ seen
    · rw [fpaGo_cons_seen env ac rest seen cache h1]
      rcases List.mem_cons.mp ht with rfl | ht'
      · exact absurd h1 hseen
      · exact ih seen cache t ht' hmatch hseen
    by_cases h2 : (PRESIDENTIAL_AIRCRAFT.lookup (pyLower ac.hex)).isSome = true
    · rw [fpaGo_cons_registry env ac rest seen cache h1 h2]
      by_cases heq : pyLower t.hex = pyLower ac.hex
      · exact ⟨_, List.mem_cons_self _ _, by
          rw [parse_aircraft_hex_code, heq]⟩
      · rcases List.mem_cons.mp ht with rfl | ht'
        · exact absurd rfl heq
        · obtain ⟨e, he, hex⟩ := ih _ _ t ht' hmatch
            (by
              intro hmem
              rcases List.mem_cons.mp hmem with h | h
              · exact heq h
              · exact hseen h)
          exact ⟨e, List.mem_cons_of_mem _ he, hex⟩
    cases hm : matchVIPCallsign (pyUpper (pyStrip ac.flight)) with
    | some mc =>
      rw [fpaGo_cons_pattern env ac rest seen cache mc h1 h2 hm]
      by_cases heq : pyLower t.hex = pyLower ac.hex
      · refine ⟨_, List.mem_cons_self _ _, ?_⟩
        have : ({ (parse_aircraft env ac PRESIDENTIAL_AIRCRAFT cache).1 with
            country := mc
            description :=
              "VIP Flight (" ++ pyUpper (pyStrip ac.flight) ++ ")" }).hex_code =
            pyUpper (pyLower ac.hex) := parse_aircraft_hex_code env ac PRESIDENTIAL_AIRCRAFT cache
        rw [this, heq]
      · rcases List.mem_cons.mp ht with rfl | ht'
        · exact absurd rfl heq
        · obtain ⟨e, he, hex⟩ := ih _ _ t ht' hmatch
            (by
              intro hmem
              rcases List.mem_cons.mp hmem with h | h
              · exact heq h
              · exact hseen h)
          exact ⟨e, List.mem_cons_of_mem _ he, hex⟩
    | none =>
      rw [fpaGo_cons_nomatch env ac rest seen cache h1 h2 hm]
      rcases List.mem_cons.mp ht with rfl | ht'
      · rcases hmatch with h | h
        · exact absurd h h2
        · rw [hm] at h
          simp at h
      · exact ih seen cache t ht' hmatch hseen
/-! ### Claim theorems -/

/-- C1: for every raw track in a snapshot whose identifier (lowercased) is
a key of the known-aircraft registry, the emitted entry for that identifier
carries the registry record country and description, and any emitted entry
for that identifier can only carry them, regardless of the callsign. -/
theorem registry_precedence (env : GeoEnv) (resp : ApiResponse)
    (cache : GeoCache) (t : RawAC) (rec : PresidentialRecord)
    (ht : t ∈ resp.ac)
    (hrec : PRESIDENTIAL_AIRCRAFT.lookup (pyLower t.hex) = some rec) :
    (∃ e ∈ (find_presidential_aircraft env resp cache).1,
        e.hex_code = pyUpper (pyLower t.hex) ∧
        e.country = rec.country ∧ e.description = rec.description) ∧
    (∀ e ∈ (find_presidential_aircraft env resp cache).1,
        e.hex_code = pyUpper (pyLower t.hex) →
        e.country = rec.country ∧ e.description = rec.description) := by
  have hforall : ∀ e ∈ (find_presidential_aircraft env resp cache).1,
      e.hex_code = pyUpper (pyLower t.hex) →
      e.country = rec.country ∧ e.description = rec.description := by
    intro e he hx
    obtain ⟨ac, hmem, hhex, hdisj⟩ := fpaGo_provenance env resp.ac [] cache e he
    have hac : pyLower ac.hex = pyLower t.hex :=
      py_lower_upper_inj (hhex.symm.trans hx)
    rcases hdisj with ⟨r, hr, hc, hd⟩ | hnone
    · rw [hac, hrec] at hr
      cases Option.some.inj hr
      exact ⟨hc, hd⟩
    · rw [hac, hrec] at hnone
      cases hnone
  refine ⟨?_, hforall⟩
  obtain ⟨e, he, hx⟩ := fpaGo_match_exists env resp.ac [] cache t ht
    (Or.inl (by simp [hrec])) (by simp)
  exact ⟨e, he, hx, hforall e he hx⟩

/-- C1 witness: concrete instance for the Air Force One track reported with
an uppercase identifier. -/
theorem registry_precedence_witness :
    (∃ e ∈ (find_presidential_aircraft envNoGeo respAF1 []).1,
        e.hex_code = pyUpper (pyLower acAF1.hex) ∧
        e.country = recAF1.country ∧ e.description = recAF1.description) ∧
    (∀ e ∈ (find_presidential_aircraft envNoGeo respAF1 []).1,
        e.hex_code = pyUpper (pyLower acAF1.hex) →
        e.country = recAF1.country ∧ e.description = recAF1.description) :=
  registry_precedence envNoGeo respAF1 [] acAF1 recAF1 (by decide) (by decide)

/-- C2 (amended): no two emitted entries share an identifier, and every
track that matches the registry or a callsign pattern has an entry with its
identifier in the output; for a duplicated identifier the emitted entry is
derived from the first matching occurrence, because an occurrence that
matches nothing is dropped without marking the identifier as seen. -/
theorem dedup_guarantee (env : GeoEnv) (resp : ApiResponse)
    (cache : GeoCache) :
    ((find_presidential_aircraft env resp cache).1.Pairwise
      (fun a b => a.hex_code ≠ b.hex_code)) ∧
    (∀ t ∈ resp.ac,
      ((PRESIDENTIAL_AIRCRAFT.lookup (pyLower t.hex)).isSome = true ∨
        (matchVIPCallsign (pyUpper (pyStrip t.flight))).isSome = true) →
      ∃ e ∈ (find_presidential_aircraft env resp cache).1,
        e.hex_code = pyUpper (pyLower t.hex)) :=
  ⟨fpaGo_nodup env resp.ac [] cache,
   fun t ht hm => fpaGo_match_exists env resp.ac [] cache t ht hm (by simp)⟩

/-- C2 counterexample: a snapshot carrying the identifier abc001 twice,
first with the non-matching callsign XYZ999 and then with the matching
callsign AF1, yields exactly one entry, and that entry is derived from the
second occurrence (its callsign is AF1, while parsing the first occurrence
would yield the callsign XYZ999). -/
theorem dedup_counterexample :
    ((find_presidential_aircraft envNoGeo respDup []).1.map
        (fun e => (e.hex_code, e.callsign, e.country, e.description))) =
      [("ABC001", "AF1", "USA", "VIP Flight (AF1)")] ∧
    acDup1.hex = acDup2.hex ∧
    (parse_aircraft envNoGeo acDup1 PRESIDENTIAL_AIRCRAFT []).1.callsign =
      "XYZ999" := by decide

/-- C2 witness: the duplicate snapshot has pairwise distinct identifiers in
its output, and the matching second occurrence has an entry. -/
theorem dedup_witness :
    ((find_presidential_aircraft envNoGeo respDup []).1.Pairwise
      (fun a b => a.hex_code ≠ b.hex_code)) ∧
    (∃ e ∈ (find_presidential_aircraft envNoGeo respDup []).1,
        e.hex_code = pyUpper (pyLower acDup2.hex)) :=
  ⟨(dedup_guarantee envNoGeo respDup []).1,
   (dedup_guarantee envNoGeo respDup []).2 acDup2 (by decide) (by decide)⟩

/-- C4: a transport failure is caught and replaced by an empty track list
plus the failure description, and classifying such a faulted response
yields the empty list (a list, not an absent value). -/
theorem fetch_failure_graceful (e : String) (env : GeoEnv)
    (cache : GeoCache) :
    (get_military_aircraft (.error e)).ac = [] ∧
    (get_military_aircraft (.error e)).msg = some e ∧
    (find_presidential_aircraft env (get_military_aircraft (.error e))
      cache).1 = [] :=
  ⟨rfl, rfl, rfl⟩

/-- C5 (amended): two resolve calls whose coordinates format to the same
2-decimal cache key return identical results and invoke the geocoder at
most once combined, provided the first call is resolved (geolocation
unavailable, cache hit, or geocoder success); a failed geocoder invocation
caches nothing, so the two calls invoke the geocoder at most twice
combined; existing cache entries are never changed, and a call whose key is
already populated returns the stored value with the cache unchanged. -/
theorem geo_cache_memoization (names : List (String × String)) (env : GeoEnv)
    (la1 lo1 la2 lo2 : ℚ) (c0 : GeoCache)
    (hkey : cacheKey la1 lo1 = cacheKey la2 lo2)
    (s1 : String) (c1 : GeoCache) (n1 : ℕ)
    (s2 : String) (c2 : GeoCache) (n2 : ℕ)
    (h1 : getLocationCore names env (some la1) (some lo1) c0 = (s1, c1, n1))
    (h2 : getLocationCore names env (some la2) (some lo2) c1 = (s2, c2, n2)) :
    n1 + n2 ≤ 2 ∧
    ((env.rgAvailable = false ∨ (c0.lookup (cacheKey la1 lo1)).isSome = true ∨
        (env.geocode la1 lo1).isSome = true) → (s1 = s2 ∧ n1 + n2 ≤ 1)) ∧
    (∀ k v, c0.lookup k = some v →
      (c1.lookup k = some v ∧ c2.lookup k = some v)) ∧
    (env.rgAvailable = true → ∀ v, c1.lookup (cacheKey la2 lo2) = some v →
      s2 = v ∧ c2 = c1) := by
  cases hrg : env.rgAvailable with
  | false =>
    simp only [getLocationCore, hrg, Bool.false_eq_true, if_false] at h1 h2
    injection h1 with e1 h1'
    injection h1' with e2 e3
    subst e1; subst e2; subst e3
    injection h2 with f1 h2'
    injection h2' with f2 f3
    subst f1; subst f2; subst f3
    refine ⟨by omega, fun _ => ⟨rfl, by omega⟩, fun k v hv => ⟨hv, hv⟩, ?_⟩
    intro habs
    simp at habs
  | true =>
    simp only [getLocationCore, hrg, if_true] at h1 h2
    rw [← hkey] at h2
    cases hl1 : c0.lookup (cacheKey la1 lo1) with
    | some v =>
      rw [hl1] at h1
      injection h1 with e1 h1'
      injection h1' with e2 e3
      subst e1; subst e2; subst e3
      rw [hl1] at h2
      injection h2 with f1 h2'
      injection h2' with f2 f3
      subst f1; subst f2; subst f3
      refine ⟨by omega, fun _ => ⟨rfl, by omega⟩, fun k w hw => ⟨hw, hw⟩, ?_⟩
      intro _ w hw
      rw [← hkey, hl1] at hw
      exact ⟨Option.some.inj hw, rfl⟩
    | none =>
      rw [hl1] at h1
      cases hg1 : env.geocode la1 lo1 with
      | some cc =>
        rw [hg1] at h1
        injection h1 with e1 h1'
        injection h1' with e2 e3
        subst e1; subst e2; subst e3
        have hhit : ((cacheKey la1 lo1, (names.lookup cc).getD cc) ::
            c0).lookup (cacheKey la1 lo1) =
            some ((names.lookup cc).getD cc) := List.lookup_cons_self
        rw [hhit] at h2
        injection h2 with f1 h2'
        injection h2' with f2 f3
        subst f1; subst f2; subst f3
        have hmono : ∀ k w, c0.lookup k = some w →
            ((cacheKey la1 lo1, (names.lookup cc).getD cc) ::
              c0).lookup k = some w := by
          intro k w hw
          have hne : ¬(k == cacheKey la1 lo1) = true := by
            intro hb
            rw [beq_iff_eq] at hb
            rw [hb, hl1] at hw
            cases hw
          rw [List.lookup_cons]
          have hne' : (k == cacheKey la1 lo1) = false :=
            Bool.not_eq_true _ ▸ Bool.of_not_eq_true hne
          rw [hne']
          exact hw
        refine ⟨by omega, fun _ => ⟨rfl, by omega⟩,
          fun k w hw => ⟨hmono k w hw, hmono k w hw⟩, ?_⟩
        intro _ w hw
        rw [← hkey, hhit] at hw
        exact ⟨Option.some.inj hw, rfl⟩
      | none =>
        rw [hg1] at h1
        injection h1 with e1 h1'
        injection h1' with e2 e3
        subst e1; subst e2; subst e3
        rw [hl1] at h2
        cases hg2 : env.geocode la2 lo2 with
        | some cc2 =>
          rw [hg2] at h2
          injection h2 with f1 h2'
          injection h2' with f2 f3
          subst f1; subst f2; subst f3
          refine ⟨by omega, ?_, ?_, ?_⟩
          · rintro (h | h | h) <;> simp at h
          · intro k w hw
            refine ⟨hw, ?_⟩
            have hne : ¬(k == cacheKey la1 lo1) = true := by
              intro hb
              rw [beq_iff_eq] at hb
              rw [hb, hl1] at hw
              cases hw
            rw [List.lookup_cons]
            have hne' : (k == cacheKey la1 lo1) = false :=
              Bool.not_eq_true _ ▸ Bool.of_not_eq_true hne
            rw [hne']
            exact hw
          · intro _ w hw
            rw [← hkey, hl1] at hw
            cases hw
        | none =>
          rw [hg2] at h2
          injection h2 with f1 h2'
          injection h2' with f2 f3
          subst f1; subst f2; subst f3
          refine ⟨by omega, ?_, fun k w hw => ⟨hw, hw⟩, ?_⟩
          · rintro (h | h | h) <;> simp at h
          · intro _ w hw
            rw [← hkey, hl1] at hw
            cases hw

/-- C5 counterexample: with a failing geocoder, the resolve calls for
(50.001, 14.999) and (50.004, 15.001) format to the same key 50.00,15.00
yet each invokes the geocoder, two invocations combined. -/
theorem geo_cache_counterexample :
    cacheKey (mkRat 50001 1000) (mkRat 14999 1000) =
      cacheKey (mkRat 50004 1000) (mkRat 15001 1000) ∧
    (get_location envGeoFail (some (mkRat 50001 1000))
        (some (mkRat 14999 1000)) []).2.2 = 1 ∧
    (get_location envGeoFail (some (mkRat 50004 1000))
        (some (mkRat 15001 1000))
        (get_location envGeoFail (some (mkRat 50001 1000))
          (some (mkRat 14999 1000)) []).2.1).2.2 = 1 := by decide

/-- C5 witness: with a succeeding geocoder the two calls with the same key
return identical results and invoke the geocoder once combined. -/
theorem geo_cache_witness :
    (getLocationCore country_names envGeoCZ (some (mkRat 50001 1000))
        (some (mkRat 14999 1000)) []).2.2 +
      (getLocationCore country_names envGeoCZ (some (mkRat 50004 1000))
        (some (mkRat 15001 1000))
        (getLocationCore country_names envGeoCZ (some (mkRat 50001 1000))
          (some (mkRat 14999 1000)) []).2.1).2.2 ≤ 1 ∧
    (getLocationCore country_names envGeoCZ (some (mkRat 50001 1000))
        (some (mkRat 14999 1000)) []).1 =
      (getLocationCore country_names envGeoCZ (some (mkRat 50004 1000))
        (some (mkRat 15001 1000))
        (getLocationCore country_names envGeoCZ (some (mkRat 50001 1000))
          (some (mkRat 14999 1000)) []).2.1).1 := by
  have h := geo_cache_memoization country_names envGeoCZ
    (mkRat 50001 1000) (mkRat 14999 1000) (mkRat 50004 1000)
    (mkRat 15001 1000) [] (by decide) _ _ _ _ _ _ rfl rfl
  have h2 := h.2.1 (Or.inr (Or.inr (by decide)))
  exact ⟨h2.2, h2.1⟩

/-- C6 (amended): a catalog row is loaded into the registry exactly when
its identifier column value, lowercased and stripped, has length exactly 6;
the characters are not validated, and rows failing the length test are
skipped while the load continues. -/
theorem catalog_row_filter (rs : List CsvRow) (key : String) :
    ((load_aircraft_database (.rows rs)).lookup key).isSome = true ↔
      (key.length = 6 ∧
        ∃ row ∈ rs, pyStrip (pyLower (rowGet row "$ICAO")) = key) := by
  unfold load_aircraft_database
  simpa using load_foldl_lookup key rs []

/-- C6 counterexample: the row with identifier ZZZZZZ is loaded even though
its lowercased value zzzzzz contains no hexadecimal digits at all. -/
theorem catalog_row_filter_counterexample :
    ((load_aircraft_database (.rows [rowBadHex])).lookup "zzzzzz").isSome =
      true ∧
    ("zzzzzz" : String).data.all isLowerHexChar = false := by decide

/-- C7 (amended): when the catalog file is missing the registry is
initialized empty, and main then prints an error and returns early, so no
classified list at all is produced for the run; this variant has no
pattern-matching fallback. -/
theorem catalog_missing_no_output (transport : Except String ApiResponse)
    (env : GeoEnv) :
    load_aircraft_database .missing = [] ∧
    runTracker2Main .missing transport env = none :=
  ⟨rfl, rfl⟩

/-- C7 counterexample: with the catalog missing and a healthy data source,
the run produces no classified list, where the claim promises a (possibly
empty) list. -/
theorem catalog_missing_counterexample :
    load_aircraft_database CsvSource.missing = [] ∧
    runTracker2Main CsvSource.missing (.ok { ac := [acAF1] }) envNoGeo =
      none := by decide

/-- C8 (amended): the overflight field and the geolocation side effects of
parsing equal those of a resolver call exactly when both coordinates are
present and nonzero (Python float truthiness); otherwise, including a
present-but-zero coordinate, the resolver is not invoked and the field is
empty. Both variants behave alike. -/
theorem overflight_enrichment (env : GeoEnv) (ac : RawAC)
    (known : List (String × PresidentialRecord))
    (db : List (String × AircraftRecord)) (cache : GeoCache) :
    ((pyTruthy ac.lat && pyTruthy ac.lon) = true →
      (parse_aircraft env ac known cache).1.over_country =
        (get_location env ac.lat ac.lon cache).1 ∧
      (parse_aircraft env ac known cache).2 =
        (get_location env ac.lat ac.lon cache).2) ∧
    ((pyTruthy ac.lat && pyTruthy ac.lon) = false →
      (parse_aircraft env ac known cache).1.over_country = "" ∧
      (parse_aircraft env ac known cache).2 = (cache, 0)) ∧
    (∀ rec, db.lookup (pyLower ac.hex) = some rec →
      (((pyTruthy ac.lat && pyTruthy ac.lon) = true →
        ((parse_tracked_aircraft env ac db cache).1.map (·.over_country)) =
          some (get_location2 env ac.lat ac.lon cache).1 ∧
        (parse_tracked_aircraft env ac db cache).2 =
          (get_location2 env ac.lat ac.lon cache).2) ∧
      (((pyTruthy ac.lat && pyTruthy ac.lon) = false →
        ((parse_tracked_aircraft env ac db cache).1.map (·.over_country)) =
          some "" ∧
        (parse_tracked_aircraft env ac db cache).2 = (cache, 0))))) := by
  refine ⟨?_, ?_, ?_⟩
  · intro h
    constructor <;> simp [parse_aircraft, h]
  · intro h
    constructor <;> simp [parse_aircraft, h]
  · intro rec hrec
    refine ⟨?_, ?_⟩
    · intro h
      constructor <;> simp [parse_tracked_aircraft, hrec, h]
    · intro h
      constructor <;> simp [parse_tracked_aircraft, hrec, h]

/-- C8 counterexample: a registry track at latitude 0, longitude 15: both
coordinates are present and the geocoder would resolve the position to
Czechia in one invocation, yet the emitted entry has an empty overflight
field and the resolver is never invoked. -/
theorem overflight_counterexample :
    acZeroLat.lat.isSome = true ∧ acZeroLat.lon.isSome = true ∧
    ((find_presidential_aircraft envGeoCZ { ac := [acZeroLat] } []).1.map
      (·.over_country)) = [""] ∧
    (parse_aircraft envGeoCZ acZeroLat PRESIDENTIAL_AIRCRAFT []).2 =
      ([], 0) ∧
    (get_location envGeoCZ acZeroLat.lat acZeroLat.lon []).1 = "Czechia" ∧
    (get_location envGeoCZ acZeroLat.lat acZeroLat.lon []).2.2 = 1 := by
  decide

/-- C8 witness: with a nonzero position the parsed entry carries exactly the
resolver result and side effects. -/
theorem overflight_witness :
    (parse_aircraft envGeoCZ acPos PRESIDENTIAL_AIRCRAFT []).1.over_country =
      (get_location envGeoCZ acPos.lat acPos.lon []).1 ∧
    (parse_aircraft envGeoCZ acPos PRESIDENTIAL_AIRCRAFT []).2 =
      (get_location envGeoCZ acPos.lat acPos.lon []).2 :=
  (overflight_enrichment envGeoCZ acPos PRESIDENTIAL_AIRCRAFT dbOne []).1
    (by decide)

theorem parse_tracked_some_fields (env : GeoEnv) (ac : RawAC)
    (db : List (String × AircraftRecord)) (cache : GeoCache) :
    ∀ a, (parse_tracked_aircraft env ac db cache).1 = some a →
      a.icao_hex = pyUpper (pyLower ac.hex) ∧
      (db.lookup (pyLower ac.hex)).isSome = true := by
  intro a h
  cases hl : db.lookup (pyLower ac.hex) with
  | none =>
    simp [parse_tracked_aircraft, hl] at h
  | some rec =>
    simp only [parse_tracked_aircraft, hl] at h
    rw [← Option.some.inj h]
    exact ⟨rfl, by simp⟩

theorem matchTracked_mem (env : GeoEnv) (db : List (String × AircraftRecord)) :
    ∀ (acs : List RawAC) (cache : GeoCache),
    ∀ a ∈ (matchTrackedAircraft env db acs cache).1,
      (db.lookup (pyLower a.icao_hex)).isSome = true := by
  intro acs
  induction acs with
  | nil => intro cache a ha; simp [matchTrackedAircraft] at ha
  | cons ac rest ih =>
    intro cache a ha
    cases hp : (parse_tracked_aircraft env ac db cache).1 with
    | some b =>
      have heq : matchTrackedAircraft env db (ac :: rest) cache =
          (b :: (matchTrackedAircraft env db rest
            (parse_tracked_aircraft env ac db cache).2.1).1,
           (matchTrackedAircraft env db rest
            (parse_tracked_aircraft env ac db cache).2.1).2) := by
        simp only [matchTrackedAircraft, hp]
      rw [heq] at ha
      rcases List.mem_cons.mp ha with rfl | ha'
      · obtain ⟨hhex, hsome⟩ :=
          parse_tracked_some_fields env ac db cache a hp
        rw [hhex, py_lower_upper_lower]
        exact hsome
      · exact ih _ a ha'
    | none =>
      have heq : matchTrackedAircraft env db (ac :: rest) cache =
          matchTrackedAircraft env db rest
            (parse_tracked_aircraft env ac db cache).2.1 := by
        simp only [matchTrackedAircraft, hp]
      rw [heq] at ha
      exact ih _ a ha

/-- C10: in the catalog-based variant identity matching is registry-only:
every emitted aircraft has its identifier in the database, and a track
whose lowercased identifier is not a database key yields nothing,
regardless of its callsign. -/
theorem registry_only_matching (env : GeoEnv)
    (db : List (String × AircraftRecord)) (acs : List RawAC)
    (cache : GeoCache) :
    (∀ a ∈ (matchTrackedAircraft env db acs cache).1,
        (db.lookup (pyLower a.icao_hex)).isSome = true) ∧
    (∀ (ac_data : RawAC) (c : GeoCache),
        db.lookup (pyLower ac_data.hex) = none →
        (parse_tracked_aircraft env ac_data db c).1 = none) :=
  ⟨matchTracked_mem env db acs cache,
   fun ac_data c h => by simp [parse_tracked_aircraft, h]⟩

/-- C10 witness: the one-record database emits trackedOne, whose identifier
is in the database, and a track with the unknown identifier ffffff parses
to nothing. -/
theorem registry_only_witness :
    (dbOne.lookup (pyLower trackedOne.icao_hex)).isSome = true ∧
    (parse_tracked_aircraft envNoGeo acUnknown dbOne []).1 = none :=
  ⟨(registry_only_matching envNoGeo dbOne [acDb] []).1 trackedOne (by decide),
   (registry_only_matching envNoGeo dbOne [acDb] []).2 acUnknown []
     (by decide)⟩
/-! ### The display ordering claims -/

theorem displayRichKey_le_iff (a b : AircraftInfo) :
    displayRichKey a ≤ displayRichKey b ↔
      (tierRank a < tierRank b ∨ (tierRank a = tierRank b ∧
        (a.country < b.country ∨ (a.country = b.country ∧
          a.description ≤ b.description)))) := by
  simp [displayRichKey, Prod.Lex.le_iff]

theorem displayTableKey_le_iff (a b : TrackedAircraft) :
    displayTableKey a ≤ displayTableKey b ↔
      (a.category < b.category ∨ (a.category = b.category ∧
        a.operator ≤ b.operator)) := by
  simp [displayTableKey, Prod.Lex.le_iff]

/-- C9: both display sorts produce a permutation of their input ordered by
their keys, in poc_tracker.py priority tier first, then country, then
description, in poc_tracker2.py category then operator, and both are
stable: the entries of any one key class appear in their original source
order (their filter is unchanged by sorting). -/
theorem display_sort_contract :
    (∀ l : List AircraftInfo,
      List.Perm (sortAircraftForDisplay l) l ∧
      (sortAircraftForDisplay l).Pairwise (fun a b =>
        tierRank a < tierRank b ∨ (tierRank a = tierRank b ∧
          (a.country < b.country ∨ (a.country = b.country ∧
            a.description ≤ b.description)))) ∧
      (∀ (t : ℕ) (c d : String),
        (sortAircraftForDisplay l).filter
          (fun a => decide (tierRank a = t ∧ a.country = c ∧
            a.description = d)) =
        l.filter (fun a => decide (tierRank a = t ∧ a.country = c ∧
          a.description = d)))) ∧
    (∀ l : List TrackedAircraft,
      List.Perm (sortTrackedForDisplay l) l ∧
      (sortTrackedForDisplay l).Pairwise (fun a b =>
        a.category < b.category ∨ (a.category = b.category ∧
          a.operator ≤ b.operator)) ∧
      (∀ (c d : String),
        (sortTrackedForDisplay l).filter
          (fun a => decide (a.category = c ∧ a.operator = d)) =
        l.filter (fun a => decide (a.category = c ∧ a.operator = d)))) := by
  constructor
  · intro l
    refine ⟨mergeSortByKey_perm displayRichKey l, ?_, ?_⟩
    · exact (mergeSortByKey_pairwise displayRichKey l).imp
        (fun h => (displayRichKey_le_iff _ _).mp h)
    · intro t c d
      apply mergeSortByKey_filter
      intro a b ha hb
      simp only [decide_eq_true_eq] at ha hb
      have hk : displayRichKey a = displayRichKey b := by
        unfold displayRichKey
        rw [ha.1, ha.2.1, ha.2.2, hb.1, hb.2.1, hb.2.2]
      exact le_of_eq hk
  · intro l
    refine ⟨mergeSortByKey_perm displayTableKey l, ?_, ?_⟩
    · exact (mergeSortByKey_pairwise displayTableKey l).imp
        (fun h => (displayTableKey_le_iff _ _).mp h)
    · intro c d
      apply mergeSortByKey_filter
      intro a b ha hb
      simp only [decide_eq_true_eq] at ha hb
      have hk : displayTableKey a = displayTableKey b := by
        unfold displayTableKey
        rw [ha.1, ha.2, hb.1, hb.2]
      exact le_of_eq hk
